import Mathlib

set_option maxHeartbeats 1000000
set_option synthInstance.maxHeartbeats 400000

/-!
Shallow embedding of `src/bot.js`, a single-file Telegram personal-trainer bot
built on Telegraf.  The verification target is the conversation state machine:
the per-user session store (`states`), the admin elevation set
(`adminSessions`), and the chain of text middlewares that Telegraf runs in
registration order (`bot.start`, the `bot.hears` menu handlers, the
`bot.on('text')` state dispatcher at line 429, the admin-reply middleware at
line 676, `bot.command('admin')`, the admin menu `bot.hears` handlers, the
fallback admin-operation middleware at line 834, `bot.hears('Request Data
Deletion')`, `bot.command('report')`, the bug-report middleware at line 932 and
the final catch-all).  One inbound text turn is modelled by `handleText`, which
tries the middlewares in exactly the registration order of the source file and
falls through (`next()`) precisely where the source does.

External collaborators are parameters of `Env`: the clock (`now`), uuid
generation (`freshId`), per-recipient transport success (`sendOk`, modelling
whether `bot.telegram.sendMessage` throws), `Math.random` (`randIdx`), the
shared admin secret (`adminPass`, `none` when the env var is unset) and
`JSON.parse` restricted to each schema (`parseExJson`, `parseWkJson`,
`parseChJson`; `none` models a parse exception or a non-conforming value).

Numbers: the bot parses user input with JavaScript `Number(text)` and rejects
`NaN`.  `jsNumber` embeds this for optionally-signed decimal integer literals
(the only numeric inputs whose behaviour the claims depend on); a string it
rejects is one the dispatcher treats as `NaN`.  A thrown TypeError (for example
dereferencing a missing user record) is modelled by the `Effect.crash` marker
with no state mutation, matching Telegraf catching the exception.
-/

namespace TrainerBot

/-- Character is an ASCII decimal digit. -/
def isDigitC (c : Char) : Bool := '0' ≤ c && c ≤ '9'

/-- Accumulate a decimal numeral; fails on the first non-digit character. -/
def digitsVal : List Char → Nat → Option Nat
  | [], acc => some acc
  | c :: cs, acc => if isDigitC c then digitsVal cs (acc * 10 + (c.toNat - 48)) else none

/-- Character-list core of `jsNumber`. -/
def jsNumberL : List Char → Option Int
  | [] => none
  | c :: cs =>
    if c = '-' then
      match cs with
      | [] => none
      | d :: ds => if isDigitC d then (digitsVal (d :: ds) 0).map (fun n => -(n : Int)) else none
    else if isDigitC c then (digitsVal (c :: cs) 0).map (fun n => (n : Int)) else none

/-- Embedding of JavaScript `Number(text)` (with `isNaN` rejection mapped to
`none`) on optionally-signed decimal integer literals. -/
def jsNumber (s : String) : Option Int := jsNumberL s.data

/-- Whitespace characters removed by `String.prototype.trim`. -/
def isWsC (c : Char) : Bool := c == ' ' || c == '\t' || c == '\n' || c == '\r'

/-- Drop leading and trailing whitespace from a character list. -/
def trimChars (l : List Char) : List Char :=
  ((l.dropWhile isWsC).reverse.dropWhile isWsC).reverse

/-- Embedding of JavaScript `text.trim()`. -/
def jsTrim (s : String) : String := ⟨trimChars s.data⟩

/-- JavaScript `s || d` for strings: the empty string is falsy. -/
def jsOr (s d : String) : String := if s = "" then d else s

/-- JavaScript `x || d` where `x` is a possibly-undefined string field. -/
def jsOrOpt (o : Option String) (d : String) : String :=
  match o with
  | some s => jsOr s d
  | none => d

/-- JavaScript `x || d` where `x` is a possibly-undefined numeric field
(`0` is falsy). -/
def jsOrI (o : Option Int) (d : Int) : Int :=
  match o with
  | some v => if v = 0 then d else v
  | none => d

/-- Embedding of `text.toLowerCase()`. -/
def jsToLower (s : String) : String := ⟨s.data.map Char.toLower⟩

/-- Telegraf command matching: the text is `cmd` exactly or `cmd` followed by
a space and arguments.  `cmd` includes the leading slash. -/
def cmdMatch : List Char → List Char → Bool
  | [], [] => true
  | [], c :: _ => c == ' '
  | _ :: _, [] => false
  | p :: ps, c :: cs => p == c && cmdMatch ps cs

/-- Whether text `t` triggers the command `cmd` (slash included). -/
def isCmd (cmd t : String) : Bool := cmdMatch cmd.data t.data

/-- The regex `^\d\x7b1,2\x7d:\d\x7b2\x7d$` used for reminder times. -/
def isHHmm (s : String) : Bool :=
  match s.data with
  | [a, ':', b, c] => isDigitC a && isDigitC b && isDigitC c
  | [a, b, ':', c, d] => isDigitC a && isDigitC b && isDigitC c && isDigitC d
  | _ => false

/-- Days in a month of the proleptic Gregorian calendar. -/
def daysInMonth (y m : Nat) : Nat :=
  if m = 2 then (if (y % 4 = 0 && !(y % 100 = 0)) || y % 400 = 0 then 29 else 28)
  else if m = 4 || m = 6 || m = 9 || m = 11 then 30 else 31

/-- Embedding of strict `moment(text, YYYY-MM-DD, true).isValid()`. -/
def isValidDate (s : String) : Bool :=
  match s.data with
  | [y1, y2, y3, y4, '-', m1, m2, '-', d1, d2] =>
    if isDigitC y1 && isDigitC y2 && isDigitC y3 && isDigitC y4
        && isDigitC m1 && isDigitC m2 && isDigitC d1 && isDigitC d2 then
      let y := (y1.toNat - 48) * 1000 + (y2.toNat - 48) * 100 + (y3.toNat - 48) * 10
        + (y4.toNat - 48)
      let m := (m1.toNat - 48) * 10 + (m2.toNat - 48)
      let d := (d1.toNat - 48) * 10 + (d2.toNat - 48)
      decide (1 ≤ m ∧ m ≤ 12 ∧ 1 ≤ d ∧ d ≤ daysInMonth y m)
    else false
  | _ => false

/-- Comma-separated list parsing used for the equipment field and water
reminder times: split, trim, drop empty tokens. -/
def splitTrim (s : String) : List String :=
  ((s.splitOn ",").map jsTrim).filter (fun x => x != "")

/-- JavaScript `Math.round` on a rational (round half toward positive
infinity). -/
def jsRound (q : Rat) : Int := (q + 1 / 2).floor

/-! ## Data model (mongoose schemas, restricted to fields the handlers read) -/

/-- One entry of `profileSub` embedded in a user. -/
structure Profile where
  id : String
  name : String := ""
  age : Option Int := none
  weightKg : Option Int := none
  heightCm : Option Int := none
  fitnessLevel : Option String := none
  goal : Option String := none
  goalTargetDate : Option String := none
  equipment : List String := []
  timeAvailabilityMins : Option Int := none
deriving DecidableEq

/-- One record of `stats.weightHistory`. -/
structure WeightRec where
  profileId : String
  value : Int
  date : Int
deriving DecidableEq

/-- One record of `stats.workoutsCompleted`. -/
structure WorkoutRec where
  profileId : String := ""
  workoutId : String := ""
  date : Int := 0
deriving DecidableEq

/-- One record of `stats.meals`. -/
structure MealRec where
  profileId : String
  calories : Int
  desc : String
  date : Int
deriving DecidableEq

/-- The `User` document. -/
structure User where
  telegramId : Nat
  firstName : String := ""
  username : String := ""
  profiles : List Profile := []
  activeProfileId : String := ""
  weightHistory : List WeightRec := []
  workoutsCompleted : List WorkoutRec := []
  meals : List MealRec := []
  dailyReminder : Option String := none
  waterTimes : List String := []
  consentData : Bool := true
  role : String := "user"
deriving DecidableEq

/-- One exercise of the `Exercise` collection (also the shape produced by the
pipe-format parser of the create-exercise flow). -/
structure ExerciseC where
  name : String := ""
  description : String := ""
  category : String := ""
  muscleGroups : List String := []
  difficulty : String := ""
  equipmentNeeded : List String := []
  tips : String := ""
deriving DecidableEq

/-- One exercise line inside a workout. -/
structure WExercise where
  name : String := ""
  sets : Int := 0
  reps : String := ""
deriving DecidableEq

/-- One workout of the `Workout` collection. -/
structure WorkoutC where
  name : String := ""
  description : String := ""
  exercises : List WExercise := []
  difficulty : String := ""
  durationMins : Int := 0
deriving DecidableEq

/-- One challenge of the `Challenge` collection (dates as epoch numbers). -/
structure ChallengeC where
  name : String := ""
  description : String := ""
  startDate : Int := 0
  endDate : Int := 0
deriving DecidableEq

/-- One `MessageRelay` document. -/
structure Relay where
  fromId : Nat
  profileId : String := ""
  text : String
  type : String
  date : Int := 0
  read : Bool := false
deriving DecidableEq

/-- The untyped per-session `data` bag, restricted to the keys the flows
actually store (`profileId`, `toId`, `profiles`, the browse list). -/
structure SessData where
  profileId : Option String := none
  toId : Option Nat := none
  profiles : List Profile := []
  exList : List ExerciseC := []
deriving DecidableEq

/-- One session: the current step name plus its data bag. -/
structure Sess where
  step : String
  data : SessData := {}
deriving DecidableEq

/-- The whole server state: persisted collections plus the two in-memory
ephemeral stores (`states`, `adminSessions`). -/
structure ServerState where
  users : List User := []
  exercises : List ExerciseC := []
  workouts : List WorkoutC := []
  challenges : List ChallengeC := []
  relays : List Relay := []
  states : List (Nat × Sess) := []
  adminSessions : List Nat := []
deriving DecidableEq

/-- The inbound message sender (`ctx.from`). -/
structure Sender where
  id : Nat
  firstName : String := ""
  username : String := ""
deriving DecidableEq

/-- External collaborators and ambient inputs of one turn. -/
structure Env where
  adminPass : Option String := none
  now : Int := 0
  freshId : String := "uuid-0"
  randIdx : Nat := 0
  errMsg : String := "error"
  sendOk : Nat → Bool := fun _ => true
  parseExJson : String → Option ExerciseC := fun _ => none
  parseWkJson : String → Option WorkoutC := fun _ => none
  parseChJson : String → Option ChallengeC := fun _ => none

/-- Observable outbound effects of one turn.  `reply` answers the sender,
`tell i m` is `bot.telegram.sendMessage(i, m)` being invoked, `crash` marks a
thrown TypeError (caught by Telegraf, no further mutation). -/
inductive Effect where
  | reply (text : String)
  | tell (dst : Nat) (text : String)
  | crash
deriving DecidableEq

/-- Result of one processed turn: the new server state, the effect list, and a
tag naming which registered middleware consumed the turn. -/
structure MwOut where
  srv : ServerState
  effs : List Effect
  tag : String

/-! ## Store operations -/

/-- `User.findOne(telegramId)`. -/
def findU (l : List User) (id : Nat) : Option User :=
  l.find? (fun u => u.telegramId == id)

/-- `user.save()`: replace the document with the same id. -/
def saveU (l : List User) (u : User) : List User :=
  l.map (fun v => if v.telegramId == u.telegramId then u else v)

/-- `User.deleteOne`: remove the first matching document. -/
def deleteOneU : List User → (User → Bool) → List User
  | [], _ => []
  | u :: us, p => if p u then us else u :: deleteOneU us p

/-- `states.get(id)`. -/
def getSt (l : List (Nat × Sess)) (id : Nat) : Option Sess :=
  (l.find? (fun p => p.1 == id)).map (fun p => p.2)

/-- `states.set(id, sess)`. -/
def setSt (l : List (Nat × Sess)) (id : Nat) (sess : Sess) : List (Nat × Sess) :=
  (id, sess) :: l.filter (fun p => !(p.1 == id))

/-- `states.delete(id)`. -/
def delSt (l : List (Nat × Sess)) (id : Nat) : List (Nat × Sess) :=
  l.filter (fun p => !(p.1 == id))

/-- `adminSessions.add(id)`. -/
def addAdmin (l : List Nat) (id : Nat) : List Nat :=
  if l.contains id then l else id :: l

/-- `adminSessions.delete(id)`. -/
def delAdmin (l : List Nat) (id : Nat) : List Nat :=
  l.filter (fun x => !(x == id))

/-- `adminSessions.has(id)`. -/
def isAdmin (s : ServerState) (id : Nat) : Bool :=
  s.adminSessions.contains id

/-- `u.profiles.find(p => p.id === u.activeProfileId) || u.profiles[0]`. -/
def activeOrFirst (u : User) : Option Profile :=
  match u.profiles.find? (fun p => p.id == u.activeProfileId) with
  | some p => some p
  | none => u.profiles.head?

/-- `user.profiles.find(p => p.id === pid) || user.profiles[0]`, returning the
position of the selected profile together with the profile, so that the
in-place mutation of the mongoose subdocument can be expressed as `List.set`. -/
def targetProf (u : User) (pid : Option String) : Option (Nat × Profile) :=
  match pid with
  | some p =>
    match u.profiles.findIdx? (fun q => q.id == p) with
    | some i => (u.profiles.get? i).map (fun q => (i, q))
    | none => (u.profiles.head?).map (fun q => (0, q))
  | none => (u.profiles.head?).map (fun q => (0, q))

/-- Display-name helper `mention(u)` (line 192). -/
def mention (sender : Sender) : String :=
  if sender.username != "" then "@" ++ sender.username else jsOr sender.firstName "user"

/-- Lines of a numbered list, mirroring `forEach((x,i) => text += ...)`. -/
def enumLines {α : Type} (f : Nat → α → String) (l : List α) : String :=
  String.join (l.enum.map (fun p => f p.1 p.2))

/-- Insertion step of the descending-by-date sort of the feedback list. -/
def insertDesc (r : Relay) : List Relay → List Relay
  | [] => [r]
  | x :: xs => if x.date ≤ r.date then r :: x :: xs else x :: insertDesc r xs

/-- Sort feedback items newest first (`sort(createdAt : -1)`). -/
def sortDesc (l : List Relay) : List Relay := l.foldr insertDesc []

/-- Attach the middleware tag to a handler result. -/
def tagged (r : ServerState × List Effect) (tag : String) : MwOut := ⟨r.1, r.2, tag⟩

/-! ## Menu handlers (`bot.hears`) registered before the state dispatcher,
source lines 235 to 426. -/

/-- Lines 235 to 245, the profile overview. -/
def hProfile (s : ServerState) (sender : Sender) : ServerState × List Effect :=
  match findU s.users sender.id with
  | none => (s, [Effect.reply "Please /start first."])
  | some u =>
    (s, [Effect.reply ("*Profiles*: (" ++ toString u.profiles.length ++ ")\n"
      ++ String.join (u.profiles.map (fun p =>
        "• " ++ p.name ++ " — " ++ jsOrOpt p.fitnessLevel "-" ++ " — " ++ jsOrOpt p.goal "-"
        ++ " " ++ (if p.id = u.activeProfileId then "(active)" else "") ++ "\n"))
      ++ "\nChoose: Edit Profile / Switch Profile / Add Profile / Delete Profile")])

/-- Lines 247 to 253, start the field-editing flow on the active profile. -/
def hEditProfile (s : ServerState) (sender : Sender) : ServerState × List Effect :=
  match findU s.users sender.id with
  | none => (s, [Effect.reply "Start with /start"])
  | some u =>
    match activeOrFirst u with
    | none => (s, [Effect.crash])
    | some p =>
      let st2 := setSt s.states sender.id ⟨"editing_profile_field", { profileId := some p.id }⟩
      ({ s with states := st2 },
       [Effect.reply ("Which field do you want to edit? (name, age, weight, height, "
         ++ "fitnessLevel, goal, targetDate, equipment, timeAvailability)")])

/-- Lines 255 to 263, start the switch-profile flow. -/
def hSwitchProfile (s : ServerState) (sender : Sender) : ServerState × List Effect :=
  match findU s.users sender.id with
  | none => (s, [Effect.reply "Start with /start"])
  | some u =>
    if u.profiles.length = 0 then (s, [Effect.reply "No profiles. Add one."])
    else
      let st2 := setSt s.states sender.id ⟨"switch_profile", { profiles := u.profiles }⟩
      ({ s with states := st2 },
       [Effect.reply ("Send profile number to switch:\n"
         ++ enumLines (fun i p => toString (i + 1) ++ ". " ++ p.name ++ " ("
           ++ jsOrOpt p.fitnessLevel "-" ++ ")\n") u.profiles)])

/-- Lines 265 to 273, add a profile and make it active. -/
def hAddProfile (env : Env) (s : ServerState) (sender : Sender) : ServerState × List Effect :=
  match findU s.users sender.id with
  | none => (s, [Effect.reply "Start with /start"])
  | some u =>
    let p : Profile :=
      { id := env.freshId, name := jsOr sender.firstName "Profile",
        fitnessLevel := some "beginner", goal := some "general fitness" }
    let us2 := saveU s.users { u with profiles := u.profiles ++ [p], activeProfileId := p.id }
    ({ s with users := us2 },
     [Effect.reply ("Added profile \"" ++ p.name
       ++ "\" and switched to it. Use Edit Profile to complete details.")])

/-- Lines 286 to 295, today recommendation. -/
def hToday (env : Env) (s : ServerState) (sender : Sender) : ServerState × List Effect :=
  if s.workouts.length = 0 then (s, [Effect.reply "No workouts configured."])
  else
    match findU s.users sender.id with
    | none => (s, [Effect.crash])
    | some u =>
      match activeOrFirst u with
      | none => (s, [Effect.crash])
      | some active =>
        let candidate :=
          match s.workouts.find? (fun w => active.fitnessLevel == some w.difficulty) with
          | some w => w
          | none => (s.workouts.get? (env.randIdx % s.workouts.length)).getD {}
        (s, [Effect.reply ("*Today\x27s Workout*: " ++ candidate.name ++ "\n"
          ++ candidate.description ++ "\nExercises:\n"
          ++ String.intercalate "\n" (candidate.exercises.map (fun e =>
            "• " ++ e.name ++ " — " ++ toString e.sets ++ "x" ++ e.reps)))])

/-- Lines 297 to 314, recent workouts or a starter plan. -/
def hMyPlan (s : ServerState) (sender : Sender) : ServerState × List Effect :=
  match findU s.users sender.id with
  | none => (s, [Effect.crash])
  | some u =>
    match u.profiles.find? (fun p => p.id == u.activeProfileId) with
    | none => (s, [Effect.crash])
    | some a =>
      let recent := ((u.workoutsCompleted.filter
        (fun w => w.profileId == a.id)).reverse.take 7).reverse
      if recent.length != 0 then
        (s, [Effect.reply
          "Showing recent workouts (from history). Use Browse Exercises to build a plan."])
      else
        let pool := (s.workouts.filter (fun w => a.fitnessLevel == some w.difficulty)).take 10
        let pick := if pool.length != 0 then pool.take 3 else s.workouts.take 3
        (s, [Effect.reply ("*Your 3-day starter plan:*\n"
          ++ enumLines (fun i p => toString (i + 1) ++ ". " ++ p.name ++ " — "
            ++ (if p.durationMins = 0 then "30" else toString p.durationMins)
            ++ " mins\n") pick)])

/-- Lines 316 to 323, list exercises and enter the browse flow. -/
def hBrowse (s : ServerState) (sender : Sender) : ServerState × List Effect :=
  let exs := s.exercises.take 30
  ({ s with states := setSt s.states sender.id ⟨"browse_exercises", { exList := exs }⟩ },
   [Effect.reply ("*Exercise Library*\n"
     ++ enumLines (fun i e => toString (i + 1) ++ ". " ++ e.name ++ " — " ++ e.category
       ++ " — " ++ e.difficulty ++ "\n") exs
     ++ "\nSend the exercise number to view details.")])

/-- Lines 335 to 342, recent meals. -/
def hViewMeals (s : ServerState) (sender : Sender) : ServerState × List Effect :=
  match findU s.users sender.id with
  | none => (s, [Effect.crash])
  | some u =>
    let recent := u.meals.reverse.take 10
    if recent.length = 0 then (s, [Effect.reply "No meals logged yet."])
    else
      (s, [Effect.reply ("*Recent Meals*\n" ++ String.join (recent.map (fun m =>
        toString m.date ++ ": " ++ toString m.calories ++ "kcal — " ++ m.desc ++ "\n")))])

/-- Lines 344 to 361, macro advice from the simple BMR heuristic. -/
def hMacro (s : ServerState) (sender : Sender) : ServerState × List Effect :=
  match findU s.users sender.id with
  | none => (s, [Effect.crash])
  | some u =>
    match u.profiles.find? (fun p => p.id == u.activeProfileId) with
    | none => (s, [Effect.reply "Set up profile first."])
    | some p =>
      let w := jsOrI p.weightKg 70
      let h := jsOrI p.heightCm 170
      let a := jsOrI p.age 30
      let bmr : Rat := 10 * (w : Rat) + (25 : Rat) / 4 * (h : Rat) - 5 * (a : Rat) + 5
      let calories := jsRound (bmr * ((27 : Rat) / 20))
      let protein := jsRound ((8 : Rat) / 5 * (w : Rat))
      let fatCalories := jsRound ((calories : Rat) * ((1 : Rat) / 4))
      let fat := jsRound ((fatCalories : Rat) / 9)
      let proteinCalories := protein * 4
      let carbsCalories := calories - (fatCalories + proteinCalories)
      let carbs := jsRound ((carbsCalories : Rat) / 4)
      (s, [Effect.reply ("Estimated daily calories: *" ++ toString calories
        ++ " kcal*\nMacros:\n• Protein: " ++ toString protein ++ "g\n• Fat: "
        ++ toString fat ++ "g\n• Carbs: " ++ toString carbs
        ++ "g\n(These are suggestions; adapt to your needs)")])

/-- Lines 370 to 377, the weight-progress chart. -/
def hProgress (s : ServerState) (sender : Sender) : ServerState × List Effect :=
  match findU s.users sender.id with
  | none => (s, [Effect.crash])
  | some u =>
    let weights := u.weightHistory.filter (fun w => w.profileId == u.activeProfileId)
    if weights.length = 0 then
      (s, [Effect.reply "No weight history yet. Log weight in profile edits or via /log (menu)."])
    else (s, [Effect.reply "Weight progress"])

/-- Lines 394 to 400, clear all reminders. -/
def hRemoveReminders (s : ServerState) (sender : Sender) : ServerState × List Effect :=
  match findU s.users sender.id with
  | none => (s, [Effect.reply "Start with /start."])
  | some u =>
    ({ s with users := saveU s.users { u with dailyReminder := none, waterTimes := [] } },
     [Effect.reply "Removed reminders."])

/-- Lines 409 to 417, active challenges. -/
def hChallenges (env : Env) (s : ServerState) : ServerState × List Effect :=
  let active := s.challenges.filter
    (fun c => decide (c.startDate ≤ env.now ∧ env.now ≤ c.endDate))
  if active.length = 0 then
    (s, [Effect.reply "No active challenges. Admin can create one from content management."])
  else
    (s, [Effect.reply ("*Active Challenges:*\n"
      ++ enumLines (fun i c => toString (i + 1) ++ ". " ++ c.name ++ " — "
        ++ toString c.startDate ++ " to " ++ toString c.endDate ++ "\n") active)])

/-- The `bot.hears` chain registered before the first `bot.on('text')`
middleware, in registration order (source lines 235 to 426).  A matching
trigger consumes the turn; otherwise the turn falls through. -/
def mwHears1 (env : Env) (s : ServerState) (sender : Sender) (t : String) : Option MwOut :=
  if t = "📋 Profile" then some (tagged (hProfile s sender) "hears:📋 Profile")
  else if t = "✏️ Edit Profile" then some (tagged (hEditProfile s sender) "hears:✏️ Edit Profile")
  else if t = "🔁 Switch Profile" then
    some (tagged (hSwitchProfile s sender) "hears:🔁 Switch Profile")
  else if t = "➕ Add Profile" then
    some (tagged (hAddProfile env s sender) "hears:➕ Add Profile")
  else if t = "🗑️ Delete Profile" then
    some (tagged ({ s with states := setSt s.states sender.id ⟨"delete_profile", {}⟩ },
      [Effect.reply "Send profile number to delete (cannot delete last profile)."])
      "hears:🗑️ Delete Profile")
  else if t = "💪 Workouts" then
    some (tagged (s, [Effect.reply "Workouts menu"]) "hears:💪 Workouts")
  else if t = "🏋️ Today" then some (tagged (hToday env s sender) "hears:🏋️ Today")
  else if t = "📝 My Plan" then some (tagged (hMyPlan s sender) "hears:📝 My Plan")
  else if t = "🔎 Browse Exercises" then
    some (tagged (hBrowse s sender) "hears:🔎 Browse Exercises")
  else if t = "🍎 Nutrition" then
    some (tagged (s, [Effect.reply "Nutrition menu"]) "hears:🍎 Nutrition")
  else if t = "➕ Log Meal" then
    some (tagged ({ s with states := setSt s.states sender.id ⟨"log_meal", {}⟩ },
      [Effect.reply "Send meal like: 600 oats + banana"]) "hears:➕ Log Meal")
  else if t = "📜 View Meals" then some (tagged (hViewMeals s sender) "hears:📜 View Meals")
  else if t = "🍽️ Macro Advice" then some (tagged (hMacro s sender) "hears:🍽️ Macro Advice")
  else if t = "💧 Water Tracker" then
    some (tagged ({ s with states := setSt s.states sender.id ⟨"set_water_times", {}⟩ },
      [Effect.reply ("Send water reminder times separated by comma (e.g., 10:00,14:00,18:00) "
        ++ "or \"off\" to disable.")]) "hears:💧 Water Tracker")
  else if t = "📊 Progress" then some (tagged (hProgress s sender) "hears:📊 Progress")
  else if t = "📅 Reminders" then
    some (tagged (s, [Effect.reply "Reminders menu"]) "hears:📅 Reminders")
  else if t = "Set Daily Workout" then
    some (tagged ({ s with states := setSt s.states sender.id ⟨"set_daily_reminder", {}⟩ },
      [Effect.reply "Send time like 18:30 (HH:mm) to receive daily workout reminder."])
      "hears:Set Daily Workout")
  else if t = "Set Water Reminders" then
    some (tagged ({ s with states := setSt s.states sender.id ⟨"set_water_reminders", {}⟩ },
      [Effect.reply "Send times list like 09:00,12:00,15:00"]) "hears:Set Water Reminders")
  else if t = "Remove Reminders" then
    some (tagged (hRemoveReminders s sender) "hears:Remove Reminders")
  else if t = "💬 Trainer" then
    some (tagged ({ s with states := setSt s.states sender.id ⟨"message_trainer", {}⟩ },
      [Effect.reply "Type your message for the trainer / admin (feedback or question)."])
      "hears:💬 Trainer")
  else if t = "🏆 Challenges" then some (tagged (hChallenges env s) "hears:🏆 Challenges")
  else if t = "⚙️ Settings" then
    some (tagged (s, [Effect.reply
      "Settings: language, notifications, data request. Use buttons or type option."])
      "hears:⚙️ Settings")
  else if t = "ℹ️ Help" then
    some (tagged (s, [Effect.reply ("Help:\n• Use the menu to navigate features.\n"
      ++ "• Admins: use /admin to login.\n"
      ++ "• For data deletion or privacy queries, use Settings -> Request Data Deletion.")])
      "hears:ℹ️ Help")
  else none

/-- Replace the users collection. -/
def setUsers (s : ServerState) (us : List User) : ServerState := { s with users := us }

/-- Replace the session store. -/
def setStates (s : ServerState) (sts : List (Nat × Sess)) : ServerState := { s with states := sts }

/-- Replace the elevation set. -/
def setAdminL (s : ServerState) (l : List Nat) : ServerState := { s with adminSessions := l }

/-- Append a relayed message. -/
def addRelay (s : ServerState) (r : Relay) : ServerState := { s with relays := s.relays ++ [r] }

/-! ## `bot.start` (lines 216 to 232) -/

/-- The default profile `/start` creates for a new user (lines 222 to 224). -/
def startProfile (env : Env) (sender : Sender) : Profile :=
  { id := env.freshId, name := jsOr sender.firstName "You",
    fitnessLevel := some "beginner", goal := some "general fitness",
    timeAvailabilityMins := some 30 }

/-- The user document `/start` creates for a new user (lines 220 to 225). -/
def startUser (env : Env) (sender : Sender) : User :=
  { telegramId := sender.id, firstName := sender.firstName,
    username := sender.username, profiles := [startProfile env sender],
    activeProfileId := (startProfile env sender).id }

/-- The `/start` command: create the user with a default profile and enter the
onboarding chain, or welcome an existing user back. -/
def mwStart (env : Env) (s : ServerState) (sender : Sender) (t : String) :
    Option (ServerState × List Effect) :=
  if isCmd "/start" t then
    match findU s.users sender.id with
    | some _ =>
      some (s, [Effect.reply ("Welcome back " ++ sender.firstName ++ "! Use the menu.")])
    | none =>
      some (setStates (setUsers s (s.users ++ [startUser env sender]))
          (setSt s.states sender.id
            ⟨"edit_profile_full", { profileId := some (startProfile env sender).id }⟩),
        [Effect.reply ("Welcome " ++ sender.firstName
           ++ "! Profile created. Please complete your profile."),
         Effect.reply "Send your age (number) to complete profile setup."])
  else none

/-! ## State dispatcher: the first `bot.on('text')` middleware (lines 429 to 634) -/

/-- The broadcast loop of lines 622 to 626: one send attempt per user, counting
successes and failures, a failed send never aborting the loop. -/
def bcastLoop1 (env : Env) (users : List User) (msg : String) :
    List Effect × Nat × Nat :=
  users.foldl (fun acc u =>
    if env.sendOk u.telegramId then (acc.1 ++ [Effect.tell u.telegramId msg], acc.2.1 + 1, acc.2.2)
    else (acc.1 ++ [Effect.tell u.telegramId msg], acc.2.1, acc.2.2 + 1)) ([], 0, 0)

/-- Shared tail of the generic field editor (lines 516 to 518): write the
mutated profile back, save, clear the session and confirm. -/
def finishEdit (s : ServerState) (sender : Sender) (user : User) (i : Nat)
    (p2 : Profile) (hist : List WeightRec) : ServerState × List Effect :=
  let u2 := { user with profiles := user.profiles.set i p2, weightHistory := hist }
  (setStates (setUsers s (saveU s.users u2)) (delSt s.states sender.id),
   [Effect.reply "Profile updated."])

/-- The state dispatcher: looks up the sender session and consumes the turn
when the step matches one of its branches, otherwise calls `next()` (`none`).
The branch order is the source order of lines 434 to 630. -/
def mwDispatch (env : Env) (s : ServerState) (sender : Sender) (raw : String) :
    Option (ServerState × List Effect) :=
  let text := jsTrim raw
  match getSt s.states sender.id with
  | none => none
  | some st =>
    -- lines 434 to 444: admin password attempt
    if st.step = "await_admin_pass" then
      let s1 := setStates s (delSt s.states sender.id)
      if env.adminPass = some text then
        some (setAdminL s1 (addAdmin s1.adminSessions sender.id),
          [Effect.reply "Admin access granted"])
      else some (s1, [Effect.reply "Wrong password"])
    -- lines 447 to 456: onboarding, age
    else if st.step = "edit_profile_full" then
      match jsNumber text with
      | none => some (s, [Effect.reply "Please send a number for age."])
      | some age =>
        match findU s.users sender.id with
        | none => some (s, [Effect.crash])
        | some user =>
          match targetProf user st.data.profileId with
          | none => some (s, [Effect.crash])
          | some (i, prof) =>
            let u2 := { user with profiles := user.profiles.set i { prof with age := some age } }
            some (setStates (setUsers s (saveU s.users u2))
                (setSt s.states sender.id ⟨"edit_profile_weight", { profileId := some prof.id }⟩),
              [Effect.reply "Send weight in kg (number)."])
    -- lines 457 to 468: onboarding, weight with history append
    else if st.step = "edit_profile_weight" then
      match jsNumber text with
      | none => some (s, [Effect.reply "Send numeric weight in kg."])
      | some val =>
        match findU s.users sender.id with
        | none => some (s, [Effect.crash])
        | some user =>
          match targetProf user st.data.profileId with
          | none => some (s, [Effect.crash])
          | some (i, prof) =>
            let u2 := { user with
              profiles := user.profiles.set i { prof with weightKg := some val },
              weightHistory := user.weightHistory ++ [⟨prof.id, val, env.now⟩] }
            some (setStates (setUsers s (saveU s.users u2))
                (setSt s.states sender.id ⟨"edit_profile_height", { profileId := some prof.id }⟩),
              [Effect.reply "Send height in cm (number)."])
    -- lines 469 to 478: onboarding, height, terminal
    else if st.step = "edit_profile_height" then
      match jsNumber text with
      | none => some (s, [Effect.reply "Send numeric height in cm."])
      | some val =>
        match findU s.users sender.id with
        | none => some (s, [Effect.crash])
        | some user =>
          match targetProf user st.data.profileId with
          | none => some (s, [Effect.crash])
          | some (i, prof) =>
            let u2 := { user with
              profiles := user.profiles.set i { prof with heightCm := some val } }
            some (setStates (setUsers s (saveU s.users u2)) (delSt s.states sender.id),
              [Effect.reply "Profile updated. Use the menu."])
    -- lines 481 to 486: choose which field to edit
    else if st.step = "editing_profile_field" then
      let field := jsToLower text
      let allowed := ["name", "age", "weight", "height", "fitnesslevel", "goal",
        "targetdate", "equipment", "timeavailability"]
      if allowed.contains field then
        some (setStates s (setSt s.states sender.id ⟨"editing_profile_" ++ field, st.data⟩),
          [Effect.reply ("Send new value for " ++ field ++ ".")])
      else
        some (s, [Effect.reply ("Field not recognized. Allowed: "
          ++ String.intercalate ", " allowed)])
    -- lines 487 to 519: generic field editor
    else if "editing_profile_".data <+: st.step.data then
      match findU s.users sender.id with
      | none => some (s, [Effect.crash])
      | some user =>
        let field := st.step.drop 16
        let tp := targetProf user st.data.profileId
        if ["age", "weight", "height", "timeavailability"].contains field then
          match jsNumber text with
          | none => some (s, [Effect.reply "Send a number."])
          | some num =>
            match tp with
            | none => some (s, [Effect.crash])
            | some (i, prof) =>
              let p2 :=
                if field = "age" then { prof with age := some num }
                else if field = "weight" then { prof with weightKg := some num }
                else if field = "height" then { prof with heightCm := some num }
                else { prof with timeAvailabilityMins := some num }
              let hist :=
                if field = "weight" then user.weightHistory ++ [⟨prof.id, num, env.now⟩]
                else user.weightHistory
              some (finishEdit s sender user i p2 hist)
        else if field = "targetdate" then
          if isValidDate text then
            match tp with
            | none => some (s, [Effect.crash])
            | some (i, prof) =>
              some (finishEdit s sender user i
                { prof with goalTargetDate := some text } user.weightHistory)
          else some (s, [Effect.reply "Send date as YYYY-MM-DD"])
        else if field = "equipment" then
          match tp with
          | none => some (s, [Effect.crash])
          | some (i, prof) =>
            some (finishEdit s sender user i
              { prof with equipment := splitTrim text } user.weightHistory)
        else if field = "fitnesslevel" then
          match tp with
          | none => some (s, [Effect.crash])
          | some (i, prof) =>
            some (finishEdit s sender user i
              { prof with fitnessLevel := some (jsToLower text) } user.weightHistory)
        else
          match tp with
          | none => some (s, [Effect.crash])
          | some (i, prof) =>
            -- dynamic write `prof[field] = text`: `name` and `goal` are schema fields,
            -- any other key is dropped by mongoose on save
            let p2 :=
              if field = "name" then { prof with name := text }
              else if field = "goal" then { prof with goal := some text }
              else prof
            some (finishEdit s sender user i p2 user.weightHistory)
    -- lines 522 to 532: switch profile
    else if st.step = "switch_profile" then
      match jsNumber text with
      | none => some (s, [Effect.reply "Send profile number."])
      | some idx =>
        let arr := st.data.profiles
        if idx < 1 ∨ idx > (arr.length : Int) then
          some (s, [Effect.reply "Invalid number."])
        else
          match findU s.users sender.id with
          | none => some (s, [Effect.crash])
          | some user =>
            match arr.get? (idx - 1).toNat with
            | none => some (s, [Effect.crash])
            | some p =>
              some (setStates (setUsers s (saveU s.users { user with activeProfileId := p.id }))
                  (delSt s.states sender.id),
                [Effect.reply ("Switched to profile " ++ p.name)])
    -- lines 535 to 545: delete profile
    else if st.step = "delete_profile" then
      match findU s.users sender.id with
      | none => some (s, [Effect.crash])
      | some user =>
        match jsNumber text with
        | none => some (s, [Effect.reply "Invalid number."])
        | some idx =>
          if idx < 1 ∨ idx > (user.profiles.length : Int) then
            some (s, [Effect.reply "Invalid number."])
          else if user.profiles.length = 1 then
            some (s, [Effect.reply "Cannot delete last profile."])
          else
            match user.profiles.get? (idx - 1).toNat with
            | none => some (s, [Effect.crash])
            | some removed =>
              let rest := user.profiles.eraseIdx (idx - 1).toNat
              match (if user.activeProfileId = removed.id
                  then (rest.head?).map (fun p => p.id)
                  else some user.activeProfileId) with
              | none => some (s, [Effect.crash])
              | some act2 =>
                some (setStates
                    (setUsers s (saveU s.users
                      { user with profiles := rest, activeProfileId := act2 }))
                    (delSt s.states sender.id),
                  [Effect.reply "Profile deleted."])
    -- lines 548 to 556: browse exercises
    else if st.step = "browse_exercises" then
      let list := st.data.exList
      match jsNumber text with
      | none => some (s, [Effect.reply "Send exercise number to view details."])
      | some idx =>
        if idx < 1 ∨ idx > (list.length : Int) then
          some (s, [Effect.reply "Send exercise number to view details."])
        else
          match list.get? (idx - 1).toNat with
          | none => some (s, [Effect.crash])
          | some ex =>
            some (setStates s (delSt s.states sender.id),
              [Effect.reply ("*" ++ ex.name ++ "*\nCategory: " ++ ex.category
                ++ "\nDifficulty: " ++ ex.difficulty ++ "\nMuscles: "
                ++ String.intercalate ", " ex.muscleGroups ++ "\n\n" ++ ex.description
                ++ "\n\nTips: " ++ jsOr ex.tips "-")])
    -- lines 559 to 572: log a meal
    else if st.step = "log_meal" then
      let parts := text.splitOn " "
      match jsNumber (parts.headD "") with
      | none =>
        some (s, [Effect.reply "Start with calories, e.g., \"600 oats + banana\""])
      | some cal =>
        let desc := jsOr (String.intercalate " " parts.tail) "meal"
        match findU s.users sender.id with
        | none => some (s, [Effect.crash])
        | some user =>
          let u2 := { user with
            meals := user.meals ++ [⟨user.activeProfileId, cal, desc, env.now⟩] }
          some (setStates (setUsers s (saveU s.users u2)) (delSt s.states sender.id),
            [Effect.reply "Meal logged."])
    -- lines 575 to 583: set the daily workout reminder
    else if st.step = "set_daily_reminder" then
      if isHHmm text then
        let reply := Effect.reply ("Daily reminder set at " ++ text ++ " (server time).")
        match findU s.users sender.id with
        | some user =>
          some (setStates (setUsers s (saveU s.users { user with dailyReminder := some text }))
              (delSt s.states sender.id), [reply])
        | none =>
          let u2 : User := { telegramId := sender.id, dailyReminder := some text }
          some (setStates (setUsers s (s.users ++ [u2])) (delSt s.states sender.id),
            [reply])
      else some (s, [Effect.reply "Time format HH:mm"])
    -- lines 586 to 601: set water reminders
    else if st.step = "set_water_reminders" then
      if jsToLower text = "off" then
        match findU s.users sender.id with
        | some user =>
          some (setStates (setUsers s (saveU s.users { user with waterTimes := [] }))
              (delSt s.states sender.id),
            [Effect.reply "Water reminders disabled."])
        | none =>
          some (setStates s (delSt s.states sender.id),
            [Effect.reply "Water reminders disabled."])
      else
        let times := ((text.splitOn ",").map jsTrim).filter isHHmm
        if times.length = 0 then
          some (s, [Effect.reply "Send times separated by comma in HH:mm format."])
        else
          match findU s.users sender.id with
          | some user =>
            some (setStates (setUsers s (saveU s.users { user with waterTimes := times }))
                (delSt s.states sender.id),
              [Effect.reply "Water reminders set."])
          | none =>
            let u2 : User := { telegramId := sender.id, waterTimes := times }
            some (setStates (setUsers s (s.users ++ [u2])) (delSt s.states sender.id),
              [Effect.reply "Water reminders set."])
    -- lines 604 to 615: message the trainer, notifying every elevated admin
    else if st.step = "message_trainer" then
      match findU s.users sender.id with
      | none => some (s, [Effect.crash])
      | some user =>
        some (setStates (addRelay s ⟨sender.id, user.activeProfileId, text, "message",
              env.now, false⟩) (delSt s.states sender.id),
          (s.adminSessions.map (fun aid =>
            Effect.tell aid ("Message from " ++ mention sender ++ ":\n" ++ text)))
          ++ [Effect.reply "Message sent to trainer/admin. They will reply via admin panel."])
    -- lines 618 to 629: the first admin-broadcast handler
    else if isAdmin s sender.id ∧ st.step = "admin_broadcast" then
      let r := bcastLoop1 env s.users ("📢 Message from Admin:\n\n" ++ text)
      some (setStates s (delSt s.states sender.id),
        r.1 ++ [Effect.reply ("Broadcast complete. Sent " ++ toString r.2.1 ++ ", failed "
          ++ toString r.2.2 ++ ".")])
    else none

/-! ## Admin-reply forwarding: the second `bot.on('text')` middleware
(lines 676 to 691).  Note that this middleware uses the raw, untrimmed text. -/

/-- Forward an admin reply to the targeted user; re-checks elevation on this
turn.  A failed send is caught and reported to the admin. -/
def mwAdminReply (env : Env) (s : ServerState) (sender : Sender) (raw : String) :
    Option (ServerState × List Effect) :=
  match getSt s.states sender.id with
  | none => none
  | some st =>
    if st.step = "admin_reply" ∧ isAdmin s sender.id = true then
      let toId := st.data.toId.getD 0
      if env.sendOk toId then
        some (setStates s (delSt s.states sender.id),
          [Effect.tell toId ("Trainer reply:\n\n" ++ raw), Effect.reply "Reply forwarded."])
      else
        some (setStates s (delSt s.states sender.id),
          [Effect.tell toId ("Trainer reply:\n\n" ++ raw),
           Effect.reply ("Failed to forward: " ++ env.errMsg)])
    else none

/-! ## `bot.command('admin')` (lines 694 to 698) -/

/-- Enter the password challenge, unless no admin password is configured. -/
def mwCmdAdmin (env : Env) (s : ServerState) (sender : Sender) (t : String) :
    Option (ServerState × List Effect) :=
  if isCmd "/admin" t then
    match env.adminPass with
    | none => some (s, [Effect.reply "No admin password set on server."])
    | some _ =>
      some (setStates s (setSt s.states sender.id ⟨"await_admin_pass", {}⟩),
        [Effect.reply "Enter admin password (it will not be stored)."])
  else none

/-! ## Admin menu handlers (`bot.hears`, lines 700 to 796) -/

/-- Lines 700 to 703, explicit elevation logout. -/
def hLogout (s : ServerState) (sender : Sender) : ServerState × List Effect :=
  if isAdmin s sender.id then
    (setAdminL s (delAdmin s.adminSessions sender.id), [Effect.reply "Logged out of admin."])
  else (s, [Effect.reply "You are not admin."])

/-- Lines 705 to 712, the user-management overview. -/
def hUserMgmt (s : ServerState) (sender : Sender) : ServerState × List Effect :=
  if isAdmin s sender.id then
    let users := s.users.take 50
    (s, [Effect.reply ("Users (" ++ toString users.length ++ "):\n"
      ++ String.join (users.map (fun u => "• " ++ toString u.telegramId ++ " — "
        ++ jsOr u.firstName "-" ++ " — Profiles:" ++ toString u.profiles.length ++ "\n")))])
  else (s, [Effect.reply "Admin only. Use /admin."])

/-- Gated entry into a one-step admin flow (lines 714 to 753 share this shape). -/
def hAdminFlowEntry (s : ServerState) (sender : Sender) (step reply : String) :
    ServerState × List Effect :=
  if isAdmin s sender.id then
    (setStates s (setSt s.states sender.id ⟨step, {}⟩), [Effect.reply reply])
  else (s, [Effect.reply "Admin only."])

/-- Lines 756 to 762, content counts. -/
def hViewContent (s : ServerState) (sender : Sender) : ServerState × List Effect :=
  if isAdmin s sender.id then
    (s, [Effect.reply ("Content counts: Exercises:" ++ toString s.exercises.length
      ++ " Workouts:" ++ toString s.workouts.length
      ++ " Challenges:" ++ toString s.challenges.length)])
  else (s, [Effect.reply "Admin only."])

/-- Lines 765 to 779, the analytics dashboard. -/
def hAnalytics (env : Env) (s : ServerState) (sender : Sender) : ServerState × List Effect :=
  if isAdmin s sender.id then
    let last7 := env.now - 7 * 24 * 3600 * 1000
    let activeUsers := (s.users.filter (fun u =>
      u.workoutsCompleted.any (fun w => decide (last7 ≤ w.date)))).length
    (s, [Effect.reply ("Analytics:\nTotal users: " ++ toString s.users.length
      ++ "\nActive last 7 days (had workout): " ++ toString activeUsers
      ++ "\nWorkouts available: " ++ toString s.workouts.length
      ++ "\nExercises: " ++ toString s.exercises.length
      ++ "\nFeedback items: "
      ++ toString (s.relays.filter (fun r => r.type == "feedback")).length)])
  else (s, [Effect.reply "Admin only."])

/-- Lines 788 to 796, dump the feedback inbox. -/
def hFeedback (s : ServerState) (sender : Sender) : ServerState × List Effect :=
  if isAdmin s sender.id then
    let items := (sortDesc (s.relays.filter
      (fun r => r.type == "feedback" || r.type == "bug"))).take 50
    if items.length = 0 then (s, [Effect.reply "No feedback/bugs reported."])
    else
      (s, items.map (fun i => Effect.reply ("From: " ++ toString i.fromId ++ "\nType: "
        ++ i.type ++ "\nAt: " ++ toString i.date ++ "\n\n" ++ i.text)))
  else (s, [Effect.reply "Admin only."])

/-- The `bot.hears` chain registered between the admin-reply middleware and the
admin-operation fallback middleware, source lines 700 to 796. -/
def mwHears2 (env : Env) (s : ServerState) (sender : Sender) (t : String) : Option MwOut :=
  if t = "⬅️ Logout Admin" then some (tagged (hLogout s sender) "hears:⬅️ Logout Admin")
  else if t = "👥 User Mgmt" then some (tagged (hUserMgmt s sender) "hears:👥 User Mgmt")
  else if t = "Promote User" then
    some (tagged (hAdminFlowEntry s sender "promote_user"
      "Send telegramId to promote to admin (user will be able to access admin panel).")
      "hears:Promote User")
  else if t = "Demote User" then
    some (tagged (hAdminFlowEntry s sender "demote_user"
      "Send telegramId to demote (remove admin role).") "hears:Demote User")
  else if t = "Remove User" then
    some (tagged (hAdminFlowEntry s sender "remove_user"
      "Send telegramId to remove user from DB (this cannot be undone here).")
      "hears:Remove User")
  else if t = "✍️ Content Mgmt" then
    some (tagged (if isAdmin s sender.id then
        (s, [Effect.reply ("Content management: Create Workout / Create Exercise / "
          ++ "Create Challenge / View Content")])
      else (s, [Effect.reply "Admin only."])) "hears:✍️ Content Mgmt")
  else if t = "Create Exercise" then
    some (tagged (hAdminFlowEntry s sender "create_exercise"
      ("Send exercise JSON or simple text \"name | category | difficulty | muscles | "
        ++ "equipment | tips | description\"")) "hears:Create Exercise")
  else if t = "Create Workout" then
    some (tagged (hAdminFlowEntry s sender "create_workout"
      ("Send workout JSON or text. For JSON use the schema: \x7bname, description, "
        ++ "exercises:[\x7bname,sets,reps\x7d], difficulty, durationMins\x7d"))
      "hears:Create Workout")
  else if t = "Create Challenge" then
    some (tagged (hAdminFlowEntry s sender "create_challenge"
      "Send challenge JSON: \x7bname,description,startDate(YYYY-MM-DD),endDate(YYYY-MM-DD)\x7d")
      "hears:Create Challenge")
  else if t = "View Content" then some (tagged (hViewContent s sender) "hears:View Content")
  else if t = "📊 Analytics" then some (tagged (hAnalytics env s sender) "hears:📊 Analytics")
  else if t = "📢 Broadcast" then
    some (tagged (hAdminFlowEntry s sender "admin_broadcast"
      "Send the broadcast message to all users (text).") "hears:📢 Broadcast")
  else if t = "🐞 Feedback" then some (tagged (hFeedback s sender) "hears:🐞 Feedback")
  else none

/-! ## Admin-operation fallback: the third `bot.on('text')` middleware
(lines 834 to 914) -/

/-- The duplicated broadcast loop of lines 904 to 907, identical in structure
to `bcastLoop1` but living in the unreachable fallback handler. -/
def bcastLoop2 (env : Env) (users : List User) (msg : String) :
    List Effect × Nat × Nat :=
  users.foldl (fun acc u =>
    if env.sendOk u.telegramId then (acc.1 ++ [Effect.tell u.telegramId msg], acc.2.1 + 1, acc.2.2)
    else (acc.1 ++ [Effect.tell u.telegramId msg], acc.2.1, acc.2.2 + 1)) ([], 0, 0)

/-- Comma-split with trim but without dropping empty tokens (the pipe-format
muscles and equipment lists of line 871 have no `filter(Boolean)`). -/
def splitTrim0 (s : String) : List String := (s.splitOn ",").map jsTrim

/-- The pipe format fallback of the create-exercise flow (lines 868 to 872). -/
def pipeExercise (t : String) : Option ExerciseC :=
  let parts := (t.splitOn "|").map jsTrim
  if 2 ≤ parts.length then
    some { name := parts.headD "", category := parts.getD 1 "",
           difficulty := jsOr (parts.getD 2 "") "medium",
           muscleGroups := if parts.getD 3 "" ≠ "" then splitTrim0 (parts.getD 3 "") else [],
           equipmentNeeded := if parts.getD 4 "" ≠ "" then splitTrim0 (parts.getD 4 "") else [],
           tips := parts.getD 5 "", description := parts.getD 6 "" }
  else none

/-- Every privileged one-step admin flow, each branch re-checking elevation
(`adminSessions.has`) on this very turn before acting. -/
def mwAdminOps (env : Env) (s : ServerState) (sender : Sender) (raw : String) :
    Option (ServerState × List Effect) :=
  let t := jsTrim raw
  match getSt s.states sender.id with
  | none => none
  | some st =>
    -- lines 839 to 847: promote
    if st.step = "promote_user" ∧ isAdmin s sender.id = true then
      let target := jsNumber t
      match s.users.find? (fun u => some (u.telegramId : Int) == target) with
      | none =>
        some (setStates s (delSt s.states sender.id), [Effect.reply "User not found"])
      | some u =>
        some (setStates (setUsers s (saveU s.users { u with role := "admin" }))
            (delSt s.states sender.id),
          [Effect.reply ("Promoted " ++ toString (target.getD 0) ++ " to admin.")])
    -- lines 848 to 856: demote
    else if st.step = "demote_user" ∧ isAdmin s sender.id = true then
      let target := jsNumber t
      match s.users.find? (fun u => some (u.telegramId : Int) == target) with
      | none =>
        some (setStates s (delSt s.states sender.id), [Effect.reply "User not found"])
      | some u =>
        some (setStates (setUsers s (saveU s.users { u with role := "user" }))
            (delSt s.states sender.id),
          [Effect.reply ("Demoted " ++ toString (target.getD 0) ++ ".")])
    -- lines 857 to 862: remove a user document
    else if st.step = "remove_user" ∧ isAdmin s sender.id = true then
      let target := jsNumber t
      let hit := s.users.any (fun u => some (u.telegramId : Int) == target)
      let n : Nat := if hit then 1 else 0
      some (setStates (setUsers s (deleteOneU s.users
            (fun u => some (u.telegramId : Int) == target)))
          (delSt s.states sender.id),
        [Effect.reply ("Delete result: \x7b\"acknowledged\":true,\"deletedCount\":"
          ++ toString n ++ "\x7d")])
    -- lines 865 to 878: create an exercise (JSON, then pipe format)
    else if st.step = "create_exercise" ∧ isAdmin s sender.id = true then
      let obj := match env.parseExJson t with
        | some o => some o
        | none => pipeExercise t
      match obj with
      | none =>
        some (s, [Effect.reply ("Invalid format. Send JSON or \"name | category | "
          ++ "difficulty | muscles | equipment | tips | description\"")])
      | some o =>
        some (setStates { s with exercises := s.exercises ++ [o] } (delSt s.states sender.id),
          [Effect.reply "Exercise created."])
    -- lines 881 to 887: create a workout (JSON only)
    else if st.step = "create_workout" ∧ isAdmin s sender.id = true then
      match env.parseWkJson t with
      | none => some (s, [Effect.reply "Send valid JSON for workout"])
      | some o =>
        some (setStates { s with workouts := s.workouts ++ [o] } (delSt s.states sender.id),
          [Effect.reply "Workout created."])
    -- lines 890 to 898: create a challenge (JSON only, dates converted)
    else if st.step = "create_challenge" ∧ isAdmin s sender.id = true then
      match env.parseChJson t with
      | none => some (s, [Effect.reply "Send valid JSON for challenge"])
      | some o =>
        some (setStates { s with challenges := s.challenges ++ [o] } (delSt s.states sender.id),
          [Effect.reply "Challenge created."])
    -- lines 901 to 910: the second, duplicated broadcast handler
    else if st.step = "admin_broadcast" ∧ isAdmin s sender.id = true then
      let r := bcastLoop2 env s.users ("📢 Admin Broadcast:\n\n" ++ t)
      some (setStates s (delSt s.states sender.id),
        r.1 ++ [Effect.reply ("Broadcast sent to " ++ toString r.2.1 ++ " users, failed "
          ++ toString r.2.2 ++ ".")])
    else none

/-! ## Data-deletion request (lines 917 to 925), `/report` (lines 928 to 931),
bug-report middleware (lines 932 to 944) -/

/-- The `Request Data Deletion` menu handler. -/
def mwHears3 (env : Env) (s : ServerState) (sender : Sender) (t : String) :
    Option (ServerState × List Effect) :=
  if t = "Request Data Deletion" then
    match findU s.users sender.id with
    | none => some (s, [Effect.reply "No account found."])
    | some u =>
      some (addRelay (setUsers s (saveU s.users { u with consentData := false }))
          ⟨sender.id, "", "User requested data deletion", "privacy", env.now, false⟩,
        [Effect.reply ("Your deletion request has been submitted to admins. We will "
          ++ "process it manually. (Full automated deletion will be implemented "
          ++ "server-side.)")])
  else none

/-- The `/report` command: enter the bug-report flow. -/
def mwCmdReport (s : ServerState) (sender : Sender) (t : String) :
    Option (ServerState × List Effect) :=
  if isCmd "/report" t then
    some (setStates s (setSt s.states sender.id ⟨"report_bug", {}⟩),
      [Effect.reply "Please describe the bug or feedback. Send message now."])
  else none

/-- The fourth `bot.on('text')` middleware: store the bug report and notify
every elevated admin (raw text, untrimmed). -/
def mwReportBug (env : Env) (s : ServerState) (sender : Sender) (raw : String) :
    Option (ServerState × List Effect) :=
  match getSt s.states sender.id with
  | none => none
  | some st =>
    if st.step = "report_bug" then
      some (setStates (addRelay s ⟨sender.id, "", raw, "bug", env.now, false⟩)
          (delSt s.states sender.id),
        (s.adminSessions.map (fun aid =>
          Effect.tell aid ("🐞 Bug reported by " ++ mention sender ++ ":\n" ++ raw)))
        ++ [Effect.reply "Thanks — bug report submitted."])
    else none

/-! ## The whole text pipeline -/

/-- One inbound text turn: the middlewares in registration order, each either
consuming the turn or falling through to the next, ending at the catch-all
`bot.on('message')` fallback of lines 947 to 950. -/
def handleText (env : Env) (s : ServerState) (sender : Sender) (t : String) : MwOut :=
  match mwStart env s sender t with
  | some p => ⟨p.1, p.2, "start"⟩
  | none =>
  match mwHears1 env s sender t with
  | some r => r
  | none =>
  match mwDispatch env s sender t with
  | some p => ⟨p.1, p.2, "state_dispatch"⟩
  | none =>
  match mwAdminReply env s sender t with
  | some p => ⟨p.1, p.2, "admin_reply"⟩
  | none =>
  match mwCmdAdmin env s sender t with
  | some p => ⟨p.1, p.2, "command:admin"⟩
  | none =>
  match mwHears2 env s sender t with
  | some r => r
  | none =>
  match mwAdminOps env s sender t with
  | some p => ⟨p.1, p.2, "admin_ops"⟩
  | none =>
  match mwHears3 env s sender t with
  | some p => ⟨p.1, p.2, "hears:Request Data Deletion"⟩
  | none =>
  match mwCmdReport s sender t with
  | some p => ⟨p.1, p.2, "command:report"⟩
  | none =>
  match mwReportBug env s sender t with
  | some p => ⟨p.1, p.2, "report_bug"⟩
  | none =>
    ⟨s, [Effect.reply "I did not understand that. Use the menu below or /help."], "fallback"⟩

/-! ## Basic lemmas: which texts are intercepted before the state dispatcher -/

/-- Every `bot.hears` trigger string registered anywhere in the file, in
registration order. -/
def allTriggers : List String :=
  ["📋 Profile", "✏️ Edit Profile", "🔁 Switch Profile", "➕ Add Profile",
   "🗑️ Delete Profile", "💪 Workouts", "🏋️ Today", "📝 My Plan", "🔎 Browse Exercises",
   "🍎 Nutrition", "➕ Log Meal", "📜 View Meals", "🍽️ Macro Advice", "💧 Water Tracker",
   "📊 Progress", "📅 Reminders", "Set Daily Workout", "Set Water Reminders",
   "Remove Reminders", "💬 Trainer", "🏆 Challenges", "⚙️ Settings", "ℹ️ Help",
   "⬅️ Logout Admin", "👥 User Mgmt", "Promote User", "Demote User", "Remove User",
   "✍️ Content Mgmt", "Create Exercise", "Create Workout", "Create Challenge",
   "View Content", "📊 Analytics", "📢 Broadcast", "🐞 Feedback",
   "Request Data Deletion"]

/-- A text that matches no `bot.hears` trigger and none of the three commands:
such a text always reaches the `bot.on('text')` middlewares. -/
def NotIntercepted (t : String) : Prop :=
  t ∉ allTriggers ∧ isCmd "/start" t = false ∧ isCmd "/admin" t = false
    ∧ isCmd "/report" t = false

instance (t : String) : Decidable (NotIntercepted t) := by
  unfold NotIntercepted; infer_instance

theorem jsNumber_some_head (s : String) (v : Int) (h : jsNumber s = some v) :
    ∃ c cs, s.data = c :: cs ∧ (c = '-' ∨ isDigitC c = true) := by
  unfold jsNumber at h
  cases hd : s.data with
  | nil => rw [hd] at h; simp [jsNumberL] at h
  | cons c cs =>
    rw [hd] at h
    by_cases hc : c = '-'
    · exact ⟨c, cs, rfl, Or.inl hc⟩
    · by_cases hdg : isDigitC c = true
      · exact ⟨c, cs, rfl, Or.inr hdg⟩
      · simp only [jsNumberL, if_neg hc, if_neg hdg] at h
        simp at h

theorem jsNumber_slash_head (s : String) (h : s.data.head? = some '/') :
    jsNumber s = none := by
  unfold jsNumber
  cases hd : s.data with
  | nil => simp [jsNumberL]
  | cons c cs =>
    rw [hd] at h
    simp only [List.head?_cons, Option.some.injEq] at h
    subst h
    simp [jsNumberL, show ('/' : Char) ≠ '-' by decide, show isDigitC '/' = false by decide]

theorem cmdMatch_cons (c : Char) (p l : List Char) (h : cmdMatch (c :: p) l = true) :
    ∃ rest, l = c :: rest := by
  cases l with
  | nil => simp [cmdMatch] at h
  | cons d ds =>
    simp only [cmdMatch, Bool.and_eq_true, beq_iff_eq] at h
    exact ⟨ds, by rw [h.1]⟩

theorem dropWhile_snoc_not (c : Char) (hc : isWsC c = false) (l : List Char) :
    ∃ m, (l ++ [c]).dropWhile isWsC = m ++ [c] := by
  induction l with
  | nil => exact ⟨[], by simp [List.dropWhile_cons, hc]⟩
  | cons x xs ih =>
    by_cases hx : isWsC x = true
    · obtain ⟨m, hm⟩ := ih
      exact ⟨m, by simp [List.dropWhile_cons, hx, hm]⟩
    · exact ⟨x :: xs, by simp [List.dropWhile_cons, hx]⟩

theorem trimChars_cons (c : Char) (l : List Char) (hc : isWsC c = false) :
    ∃ l2, trimChars (c :: l) = c :: l2 := by
  unfold trimChars
  rw [List.dropWhile_cons, if_neg (by simp [hc])]
  obtain ⟨m, hm⟩ := dropWhile_snoc_not c hc l.reverse
  rw [List.reverse_cons, hm, List.reverse_append]
  exact ⟨m.reverse, rfl⟩

theorem isCmd_trim_head (cmd t : String) (d : List Char) (hc : cmd.data = '/' :: d)
    (h : isCmd cmd t = true) : (jsTrim t).data.head? = some '/' := by
  unfold isCmd at h
  rw [hc] at h
  obtain ⟨rest, hr⟩ := cmdMatch_cons _ _ _ h
  obtain ⟨l2, hl2⟩ := trimChars_cons '/' rest (by decide)
  show (trimChars t.data).head? = some '/'
  rw [hr, hl2]
  rfl

theorem triggers_nan : ∀ x ∈ allTriggers, jsNumber (jsTrim x) = none := by decide

/-- A text whose trimmed form parses as a number matches no menu trigger and no
command, so it always reaches the state dispatcher. -/
theorem numeric_NotIntercepted (t : String) (v : Int) (h : jsNumber (jsTrim t) = some v) :
    NotIntercepted t := by
  have slash : ∀ cmd : String, ∀ d : List Char, cmd.data = '/' :: d →
      isCmd cmd t = false := by
    intro cmd d hc
    cases hb : isCmd cmd t
    · rfl
    · have hh := isCmd_trim_head cmd t d hc hb
      rw [jsNumber_slash_head _ hh] at h
      simp at h
  refine ⟨?_, slash _ _ rfl, slash _ _ rfl, slash _ _ rfl⟩
  intro hm
  rw [triggers_nan t hm] at h
  simp at h

theorem mwStart_none (env : Env) (s : ServerState) (sender : Sender) (t : String)
    (h : isCmd "/start" t = false) : mwStart env s sender t = none := by
  simp [mwStart, h]

theorem mwCmdAdmin_none (env : Env) (s : ServerState) (sender : Sender) (t : String)
    (h : isCmd "/admin" t = false) : mwCmdAdmin env s sender t = none := by
  simp [mwCmdAdmin, h]

theorem mwCmdReport_none (s : ServerState) (sender : Sender) (t : String)
    (h : isCmd "/report" t = false) : mwCmdReport s sender t = none := by
  simp [mwCmdReport, h]

theorem notTrigger_split (t : String) (h : t ∉ allTriggers) :
    ¬ t = "📋 Profile" ∧ ¬ t = "✏️ Edit Profile" ∧ ¬ t = "🔁 Switch Profile"
    ∧ ¬ t = "➕ Add Profile" ∧ ¬ t = "🗑️ Delete Profile" ∧ ¬ t = "💪 Workouts"
    ∧ ¬ t = "🏋️ Today" ∧ ¬ t = "📝 My Plan" ∧ ¬ t = "🔎 Browse Exercises"
    ∧ ¬ t = "🍎 Nutrition" ∧ ¬ t = "➕ Log Meal" ∧ ¬ t = "📜 View Meals"
    ∧ ¬ t = "🍽️ Macro Advice" ∧ ¬ t = "💧 Water Tracker" ∧ ¬ t = "📊 Progress"
    ∧ ¬ t = "📅 Reminders" ∧ ¬ t = "Set Daily Workout" ∧ ¬ t = "Set Water Reminders"
    ∧ ¬ t = "Remove Reminders" ∧ ¬ t = "💬 Trainer" ∧ ¬ t = "🏆 Challenges"
    ∧ ¬ t = "⚙️ Settings" ∧ ¬ t = "ℹ️ Help" ∧ ¬ t = "⬅️ Logout Admin"
    ∧ ¬ t = "👥 User Mgmt" ∧ ¬ t = "Promote User" ∧ ¬ t = "Demote User"
    ∧ ¬ t = "Remove User" ∧ ¬ t = "✍️ Content Mgmt" ∧ ¬ t = "Create Exercise"
    ∧ ¬ t = "Create Workout" ∧ ¬ t = "Create Challenge" ∧ ¬ t = "View Content"
    ∧ ¬ t = "📊 Analytics" ∧ ¬ t = "📢 Broadcast" ∧ ¬ t = "🐞 Feedback"
    ∧ ¬ t = "Request Data Deletion" := by
  simp only [allTriggers, List.mem_cons, List.not_mem_nil, or_false, not_or] at h
  exact h

theorem mwHears1_none (env : Env) (s : ServerState) (sender : Sender) (t : String)
    (h : t ∉ allTriggers) : mwHears1 env s sender t = none := by
  obtain ⟨h1, h2, h3, h4, h5, h6, h7, h8, h9, h10, h11, h12, h13, h14, h15, h16, h17, h18,
    h19, h20, h21, h22, h23, -⟩ := notTrigger_split t h
  unfold mwHears1
  rw [if_neg h1, if_neg h2, if_neg h3, if_neg h4, if_neg h5, if_neg h6, if_neg h7,
    if_neg h8, if_neg h9, if_neg h10, if_neg h11, if_neg h12, if_neg h13, if_neg h14,
    if_neg h15, if_neg h16, if_neg h17, if_neg h18, if_neg h19, if_neg h20, if_neg h21,
    if_neg h22, if_neg h23]

theorem mwHears2_none (env : Env) (s : ServerState) (sender : Sender) (t : String)
    (h : t ∉ allTriggers) : mwHears2 env s sender t = none := by
  obtain ⟨-, -, -, -, -, -, -, -, -, -, -, -, -, -, -, -, -, -, -, -, -, -, -, h24, h25,
    h26, h27, h28, h29, h30, h31, h32, h33, h34, h35, h36, -⟩ := notTrigger_split t h
  unfold mwHears2
  rw [if_neg h24, if_neg h25, if_neg h26, if_neg h27, if_neg h28, if_neg h29, if_neg h30,
    if_neg h31, if_neg h32, if_neg h33, if_neg h34, if_neg h35, if_neg h36]

theorem mwHears3_none (env : Env) (s : ServerState) (sender : Sender) (t : String)
    (h : t ∉ allTriggers) : mwHears3 env s sender t = none := by
  obtain ⟨-, -, -, -, -, -, -, -, -, -, -, -, -, -, -, -, -, -, -, -, -, -, -, -, -,
    -, -, -, -, -, -, -, -, -, -, -, h37⟩ := notTrigger_split t h
  unfold mwHears3
  rw [if_neg h37]

/-- When the text is not intercepted by `bot.start` or the early menu handlers
and the state dispatcher consumes it, the turn result is the dispatcher result,
tagged as the state dispatcher. -/
theorem handleText_dispatch (env : Env) (s : ServerState) (sender : Sender) (t : String)
    (p : ServerState × List Effect) (hni : NotIntercepted t)
    (hd : mwDispatch env s sender t = some p) :
    handleText env s sender t = ⟨p.1, p.2, "state_dispatch"⟩ := by
  obtain ⟨hm, hs, _, _⟩ := hni
  simp only [handleText, mwStart_none env s sender t hs, mwHears1_none env s sender t hm, hd]

/-- The session steps the state dispatcher consumes unconditionally (the
generic-editor steps `editing_profile_*` are matched by prefix instead). -/
def coreSteps : List String :=
  ["await_admin_pass", "edit_profile_full", "edit_profile_weight", "edit_profile_height",
   "editing_profile_field", "switch_profile", "delete_profile", "browse_exercises",
   "log_meal", "set_daily_reminder", "set_water_reminders", "message_trainer"]

/-- The state dispatcher consumes every turn whose session step is one of its
steps: each branch replies on every path and never calls `next()`. -/
theorem mwDispatch_isSome (env : Env) (s : ServerState) (sender : Sender) (raw : String)
    (st : Sess) (h : getSt s.states sender.id = some st)
    (hstep : st.step ∈ coreSteps ∨ "editing_profile_".data <+: st.step.data) :
    ∃ p, mwDispatch env s sender raw = some p := by
  simp only [mwDispatch, h]
  rcases hstep with hmem | hpre
  · simp only [coreSteps, List.mem_cons, List.not_mem_nil, or_false] at hmem
    rcases hmem with hc|hc|hc|hc|hc|hc|hc|hc|hc|hc|hc|hc <;> rw [hc] <;> simp <;>
      repeat' first | exact ⟨_, rfl⟩ | exact ⟨_, _, rfl⟩ | split
  · obtain ⟨rest, hrest⟩ := hpre
    by_cases h1 : st.step = "await_admin_pass"
    · rw [h1] at hrest; simp at hrest
    · by_cases h2 : st.step = "edit_profile_full"
      · rw [h2] at hrest; simp at hrest
      · by_cases h3 : st.step = "edit_profile_weight"
        · rw [h3] at hrest; simp at hrest
        · by_cases h4 : st.step = "edit_profile_height"
          · rw [h4] at hrest; simp at hrest
          · rw [if_neg h1, if_neg h2, if_neg h3, if_neg h4]
            by_cases h5 : st.step = "editing_profile_field"
            · rw [if_pos h5]
              repeat' first | exact ⟨_, rfl⟩ | exact ⟨_, _, rfl⟩ | split
            · rw [if_neg h5, if_pos ⟨rest, hrest⟩]
              repeat' first | exact ⟨_, rfl⟩ | exact ⟨_, _, rfl⟩ | split

/-! ## Projection lemmas for the state updaters -/

/-- The 23 `bot.hears` trigger labels registered before the line-429 state
dispatcher (source lines 235 to 426), in registration order. -/
def hears1Triggers : List String :=
  ["📋 Profile", "✏️ Edit Profile", "🔁 Switch Profile", "➕ Add Profile",
   "🗑️ Delete Profile", "💪 Workouts", "🏋️ Today", "📝 My Plan", "🔎 Browse Exercises",
   "🍎 Nutrition", "➕ Log Meal", "📜 View Meals", "🍽️ Macro Advice", "💧 Water Tracker",
   "📊 Progress", "📅 Reminders", "Set Daily Workout", "Set Water Reminders",
   "Remove Reminders", "💬 Trainer", "🏆 Challenges", "⚙️ Settings", "ℹ️ Help"]

/-- A text matching none of the 23 pre-dispatcher labels falls through the
early `bot.hears` chain. -/
theorem mwHears1_none1 (env : Env) (s : ServerState) (sender : Sender) (t : String)
    (h : t ∉ hears1Triggers) : mwHears1 env s sender t = none := by
  simp only [hears1Triggers, List.mem_cons, List.not_mem_nil, or_false, not_or] at h
  obtain ⟨h1, h2, h3, h4, h5, h6, h7, h8, h9, h10, h11, h12, h13, h14, h15, h16, h17, h18, h19, h20, h21, h22, h23⟩ := h
  unfold mwHears1
  rw [if_neg h1, if_neg h2, if_neg h3, if_neg h4, if_neg h5, if_neg h6, if_neg h7, if_neg h8, if_neg h9, if_neg h10, if_neg h11, if_neg h12, if_neg h13, if_neg h14, if_neg h15, if_neg h16, if_neg h17, if_neg h18, if_neg h19, if_neg h20, if_neg h21, if_neg h22, if_neg h23]

/-- A text that is not `/start` and matches none of the 23 pre-dispatcher
labels reaches the state dispatcher; when that consumes it, the turn result is
the dispatcher result. -/
theorem handleText_dispatch1 (env : Env) (s : ServerState) (sender : Sender) (t : String)
    (p : ServerState × List Effect) (hs : isCmd "/start" t = false)
    (hm : t ∉ hears1Triggers) (hd : mwDispatch env s sender t = some p) :
    handleText env s sender t = ⟨p.1, p.2, "state_dispatch"⟩ := by
  simp only [handleText, mwStart_none env s sender t hs, mwHears1_none1 env s sender t hm, hd]

/-- A text that is not `/start` and is consumed by the early `bot.hears` chain
yields that chain result — regardless of any active session. -/
theorem handleText_hears1 (env : Env) (s : ServerState) (sender : Sender) (t : String)
    (r : MwOut) (hs : isCmd "/start" t = false) (hh : mwHears1 env s sender t = some r) :
    handleText env s sender t = r := by
  simp only [handleText, mwStart_none env s sender t hs, hh]

/-- Tag form of the previous lemma: the turn carries the menu-handler tag. -/
theorem handleText_hears1_tag (env : Env) (s : ServerState) (sender : Sender) (t : String)
    (pr : ServerState × List Effect) (tag : String) (hs : isCmd "/start" t = false)
    (hh : mwHears1 env s sender t = some (tagged pr tag)) :
    (handleText env s sender t).tag = tag := by
  rw [handleText_hears1 env s sender t _ hs hh]
  rfl

@[simp] theorem setUsers_users (s : ServerState) (us : List User) :
    (setUsers s us).users = us := rfl
@[simp] theorem setUsers_states (s : ServerState) (us : List User) :
    (setUsers s us).states = s.states := rfl
@[simp] theorem setUsers_adminSessions (s : ServerState) (us : List User) :
    (setUsers s us).adminSessions = s.adminSessions := rfl
@[simp] theorem setUsers_exercises (s : ServerState) (us : List User) :
    (setUsers s us).exercises = s.exercises := rfl
@[simp] theorem setUsers_workouts (s : ServerState) (us : List User) :
    (setUsers s us).workouts = s.workouts := rfl
@[simp] theorem setUsers_challenges (s : ServerState) (us : List User) :
    (setUsers s us).challenges = s.challenges := rfl
@[simp] theorem setUsers_relays (s : ServerState) (us : List User) :
    (setUsers s us).relays = s.relays := rfl

@[simp] theorem setStates_users (s : ServerState) (sts : List (Nat × Sess)) :
    (setStates s sts).users = s.users := rfl
@[simp] theorem setStates_states (s : ServerState) (sts : List (Nat × Sess)) :
    (setStates s sts).states = sts := rfl
@[simp] theorem setStates_adminSessions (s : ServerState) (sts : List (Nat × Sess)) :
    (setStates s sts).adminSessions = s.adminSessions := rfl
@[simp] theorem setStates_exercises (s : ServerState) (sts : List (Nat × Sess)) :
    (setStates s sts).exercises = s.exercises := rfl
@[simp] theorem setStates_workouts (s : ServerState) (sts : List (Nat × Sess)) :
    (setStates s sts).workouts = s.workouts := rfl
@[simp] theorem setStates_challenges (s : ServerState) (sts : List (Nat × Sess)) :
    (setStates s sts).challenges = s.challenges := rfl
@[simp] theorem setStates_relays (s : ServerState) (sts : List (Nat × Sess)) :
    (setStates s sts).relays = s.relays := rfl

@[simp] theorem setAdminL_users (s : ServerState) (l : List Nat) :
    (setAdminL s l).users = s.users := rfl
@[simp] theorem setAdminL_states (s : ServerState) (l : List Nat) :
    (setAdminL s l).states = s.states := rfl
@[simp] theorem setAdminL_adminSessions (s : ServerState) (l : List Nat) :
    (setAdminL s l).adminSessions = l := rfl
@[simp] theorem setAdminL_exercises (s : ServerState) (l : List Nat) :
    (setAdminL s l).exercises = s.exercises := rfl
@[simp] theorem setAdminL_workouts (s : ServerState) (l : List Nat) :
    (setAdminL s l).workouts = s.workouts := rfl
@[simp] theorem setAdminL_challenges (s : ServerState) (l : List Nat) :
    (setAdminL s l).challenges = s.challenges := rfl
@[simp] theorem setAdminL_relays (s : ServerState) (l : List Nat) :
    (setAdminL s l).relays = s.relays := rfl

@[simp] theorem addRelay_users (s : ServerState) (r : Relay) :
    (addRelay s r).users = s.users := rfl
@[simp] theorem addRelay_states (s : ServerState) (r : Relay) :
    (addRelay s r).states = s.states := rfl
@[simp] theorem addRelay_adminSessions (s : ServerState) (r : Relay) :
    (addRelay s r).adminSessions = s.adminSessions := rfl
@[simp] theorem addRelay_exercises (s : ServerState) (r : Relay) :
    (addRelay s r).exercises = s.exercises := rfl
@[simp] theorem addRelay_workouts (s : ServerState) (r : Relay) :
    (addRelay s r).workouts = s.workouts := rfl
@[simp] theorem addRelay_challenges (s : ServerState) (r : Relay) :
    (addRelay s r).challenges = s.challenges := rfl
@[simp] theorem addRelay_relays (s : ServerState) (r : Relay) :
    (addRelay s r).relays = s.relays ++ [r] := rfl

/-! ## Shared concrete fixtures for witnesses and counterexamples -/

/-- A sender used throughout the concrete scenarios. -/
def senderW : Sender := { id := 7, firstName := "Ann" }

/-- A single profile of the fixture user. -/
def profW : Profile := { id := "pA", name := "Ann" }

/-- A registered fixture user owning one profile. -/
def userW : User := { telegramId := 7, profiles := [profW], activeProfileId := "pA" }

/-- A default environment for concrete runs. -/
def envW : Env := {}

/-- Server state in which the fixture user is mid-onboarding at the weight
step. -/
def midWeightW : ServerState :=
  { users := [userW],
    states := [(7, { step := "edit_profile_weight", data := { profileId := some "pA" } })] }

/-! ## Claim C1 -/

/-- C1, counterexample.  The claim states that a user with an active session is
always dispatched to the active flow handler and never to a menu handler, even
when the text matches a menu label.  Concretely false: the fixture user is
mid-flow at step `edit_profile_weight`, sends the menu label `📋 Profile`, and
the turn is consumed by the `bot.hears('📋 Profile')` menu handler (registered
at line 235, before the state dispatcher of line 429); the session stays behind
untouched and the flow handler never sees the text. -/
theorem claim1_counterexample :
    getSt midWeightW.states senderW.id
        = some { step := "edit_profile_weight", data := { profileId := some "pA" } }
    ∧ (handleText envW midWeightW senderW "📋 Profile").tag = "hears:📋 Profile"
    ∧ (handleText envW midWeightW senderW "📋 Profile").tag ≠ "state_dispatch"
    ∧ getSt (handleText envW midWeightW senderW "📋 Profile").srv.states senderW.id
        = some { step := "edit_profile_weight", data := { profileId := some "pA" } } := by
  decide

/-- C1, amended.  Only the handlers registered before the line-429 state
dispatcher can win over an active flow.  (a) For a user with an active session
on one of the dispatcher flow steps, a text that is not `/start` and matches
none of the 23 pre-dispatcher menu labels is dispatched to the active flow
handler (the state dispatcher) — this includes the admin-menu labels such as
`⬅️ Logout Admin`, the label `Request Data Deletion`, and the commands
`/admin` and `/report`, which are all registered after the dispatcher and are
therefore consumed by the active flow.  (b) Conversely, each of the 23
pre-dispatcher menu labels is consumed by its `bot.hears` handler on every
turn, regardless of any active session, so the flow handler never sees such a
text. -/
theorem claim1_flow_wins_when_not_menu_label (env : Env) (s : ServerState) (sender : Sender)
    (t : String) (st : Sess) (h : getSt s.states sender.id = some st)
    (hcmd : isCmd "/start" t = false) (hmem : t ∉ hears1Triggers)
    (hstep : st.step ∈ coreSteps ∨ "editing_profile_".data <+: st.step.data) :
    (handleText env s sender t).tag = "state_dispatch"
    ∧ (∀ t2 ∈ hears1Triggers, ∀ (env2 : Env) (s2 : ServerState) (sender2 : Sender),
        (handleText env2 s2 sender2 t2).tag = "hears:" ++ t2) := by
  constructor
  · obtain ⟨p, hp⟩ := mwDispatch_isSome env s sender t st h hstep
    rw [handleText_dispatch1 env s sender t p hcmd hmem hp]
  · intro t2 ht2 env2 s2 sender2
    simp only [hears1Triggers, List.mem_cons, List.not_mem_nil, or_false] at ht2
    rcases ht2 with rfl|rfl|rfl|rfl|rfl|rfl|rfl|rfl|rfl|rfl|rfl|rfl|rfl|rfl|rfl|rfl|rfl|rfl|rfl|rfl|rfl|rfl|rfl
    all_goals exact handleText_hears1_tag env2 s2 sender2 _ _ _ (by decide) rfl

/-- C1, witness: mid-flow at the weight step, the number `82` and the
post-dispatcher label `⬅️ Logout Admin` are both dispatched to the flow
(state dispatcher), while the pre-dispatcher label `📋 Profile` goes to its
menu handler. -/
theorem claim1_witness :
    (handleText envW midWeightW senderW "82").tag = "state_dispatch"
    ∧ (handleText envW midWeightW senderW "⬅️ Logout Admin").tag = "state_dispatch"
    ∧ (handleText envW midWeightW senderW "📋 Profile").tag = "hears:" ++ "📋 Profile" :=
  ⟨(claim1_flow_wins_when_not_menu_label envW midWeightW senderW "82"
      { step := "edit_profile_weight", data := { profileId := some "pA" } }
      (by decide) (by decide) (by decide) (Or.inl (by decide))).1,
   (claim1_flow_wins_when_not_menu_label envW midWeightW senderW "⬅️ Logout Admin"
      { step := "edit_profile_weight", data := { profileId := some "pA" } }
      (by decide) (by decide) (by decide) (Or.inl (by decide))).1,
   (claim1_flow_wins_when_not_menu_label envW midWeightW senderW "82"
      { step := "edit_profile_weight", data := { profileId := some "pA" } }
      (by decide) (by decide) (by decide) (Or.inl (by decide))).2
     "📋 Profile" (by decide) envW midWeightW senderW⟩

/-! ## Claim C2 -/

/-- C2.  Every turn that successfully sets a profile weight — via the
onboarding chain step `edit_profile_weight` or via the generic field editor
step `editing_profile_weight` — performs, in that same turn, both the
current-value mutation (`weightKg := v`) and exactly one append of a
`(profileId, value, timestamp)` record to the weight-history log: the saved
user document is exactly the old one with the selected profile's `weightKg`
replaced and `weightHistory` extended by that single record. -/
theorem claim2_weight_dual_write (env : Env) (s : ServerState) (sender : Sender)
    (t : String) (st : Sess) (v : Int) (user : User) (i : Nat) (prof : Profile)
    (hst : getSt s.states sender.id = some st)
    (hstep : st.step = "edit_profile_weight" ∨ st.step = "editing_profile_weight")
    (hn : jsNumber (jsTrim t) = some v)
    (hu : findU s.users sender.id = some user)
    (hp : targetProf user st.data.profileId = some (i, prof)) :
    (handleText env s sender t).srv.users =
      saveU s.users { user with
        profiles := user.profiles.set i { prof with weightKg := some v },
        weightHistory := user.weightHistory ++ [⟨prof.id, v, env.now⟩] } := by
  have hni := numeric_NotIntercepted t v hn
  rcases hstep with hc | hc
  · have hd : mwDispatch env s sender t = some
        (setStates (setUsers s (saveU s.users { user with
            profiles := user.profiles.set i { prof with weightKg := some v },
            weightHistory := user.weightHistory ++ [⟨prof.id, v, env.now⟩] }))
          (setSt s.states sender.id ⟨"edit_profile_height", { profileId := some prof.id }⟩),
         [Effect.reply "Send height in cm (number)."]) := by
      simp [mwDispatch, hst, hc, hn, hu, hp]
    rw [handleText_dispatch env s sender t _ hni hd]
    rfl
  · have hd : mwDispatch env s sender t = some
        (finishEdit s sender user i { prof with weightKg := some v }
          (user.weightHistory ++ [⟨prof.id, v, env.now⟩])) := by
      simp [mwDispatch, hst, hc, hn, hu, hp,
        show "editing_profile_weight".drop 16 = "weight" from rfl]
    rw [handleText_dispatch env s sender t _ hni hd]
    simp [finishEdit]

/-- C2, witness: the fixture user mid-onboarding at the weight step sends 82;
the saved document carries `weightKg = 82` and one new history record. -/
theorem claim2_witness :
    (handleText envW midWeightW senderW "82").srv.users =
      saveU midWeightW.users { userW with
        profiles := userW.profiles.set 0 { profW with weightKg := some 82 },
        weightHistory := userW.weightHistory ++ [⟨"pA", 82, 0⟩] } :=
  claim2_weight_dual_write envW midWeightW senderW "82"
    { step := "edit_profile_weight", data := { profileId := some "pA" } } 82 userW 0 profW
    (by decide) (Or.inl rfl) (by decide) (by decide) (by decide)

/-! ## Claim C9 -/

/-- Server state in which the fixture user is editing the fitness level. -/
def midFitnessW : ServerState :=
  { users := [userW],
    states := [(7, ⟨"editing_profile_fitnesslevel", { profileId := some "pA" }⟩)] }

/-- C9, counterexample.  The claim states that every stored profile
`fitnessLevel` is one of `beginner`, `intermediate`, `advanced`.  Concretely
false: the generic editor's `fitnesslevel` branch (line 511) stores the
lowercased input text without validating it, so sending `Expert` stores
`expert`, which is not in the enum. -/
theorem claim9_counterexample :
    (findU (handleText envW midFitnessW senderW "Expert").srv.users 7).map
        (fun u => u.profiles.map (fun p => p.fitnessLevel)) = some [some "expert"]
    ∧ "expert" ∉ (["beginner", "intermediate", "advanced"] : List String) := by
  decide

/-- C9, amended.  The default profile created by `/start` does carry
`fitnessLevel = beginner` (a member of the enum), but the generic field
editor's `fitnesslevel` branch stores the lowercased input text unvalidated,
so any value outside the enum can be stored. -/
theorem claim9_fitnesslevel_unvalidated (env : Env) (s : ServerState) (sender : Sender) :
    (findU s.users sender.id = none →
      (handleText env s sender "/start").srv.users = s.users ++ [startUser env sender]
      ∧ (startProfile env sender).fitnessLevel = some "beginner")
    ∧ (∀ (t : String) (st : Sess) (user : User) (i : Nat) (prof : Profile),
        getSt s.states sender.id = some st →
        st.step = "editing_profile_fitnesslevel" → NotIntercepted t →
        findU s.users sender.id = some user →
        targetProf user st.data.profileId = some (i, prof) →
        (handleText env s sender t).srv.users =
          saveU s.users { user with
            profiles := user.profiles.set i
              { prof with fitnessLevel := some (jsToLower (jsTrim t)) } }) := by
  constructor
  · intro hnew
    refine ⟨?_, rfl⟩
    simp [handleText, mwStart, hnew, show isCmd "/start" "/start" = true from rfl]
  · intro t st user i prof hst hc hni hu hp
    have hd : mwDispatch env s sender t = some
        (finishEdit s sender user i { prof with fitnessLevel := some (jsToLower (jsTrim t)) }
          user.weightHistory) := by
      simp [mwDispatch, hst, hc, hu, hp,
        show "editing_profile_fitnesslevel".drop 16 = "fitnesslevel" from rfl]
    rw [handleText_dispatch env s sender t _ hni hd]
    simp [finishEdit]

/-- C9, witness for the amended theorem: `/start` for a fresh user stores the
enum default, and the editor stores the lowercased raw text. -/
theorem claim9_witness :
    ((handleText envW ({} : ServerState) senderW "/start").srv.users
        = [] ++ [startUser envW senderW]
      ∧ (startProfile envW senderW).fitnessLevel = some "beginner")
    ∧ (handleText envW midFitnessW senderW "Expert").srv.users =
        saveU midFitnessW.users { userW with
          profiles := userW.profiles.set 0
            { profW with fitnessLevel := some (jsToLower (jsTrim "Expert")) } } :=
  ⟨(claim9_fitnesslevel_unvalidated envW {} senderW).1 (by decide),
   (claim9_fitnesslevel_unvalidated envW midFitnessW senderW).2 "Expert"
     { step := "editing_profile_fitnesslevel", data := { profileId := some "pA" } }
     userW 0 profW (by decide) rfl (by decide) (by decide) (by decide)⟩

/-! ## Claim C4 -/

/-- C4, counterexample.  The claim states that at every numeric-validation step
an input that does not parse as a number leaves the step unchanged and mutates
no persisted field.  Concretely false: the fixture user mid-onboarding at the
weight step sends `➕ Add Profile`, which does not parse as a number; the menu
handler registered before the dispatcher consumes the turn and persists a
brand-new profile (profile count 1 to 2), although the step is indeed left
unchanged. -/
theorem claim4_counterexample :
    jsNumber (jsTrim "➕ Add Profile") = none
    ∧ (findU midWeightW.users 7).map (fun u => u.profiles.length) = some 1
    ∧ (findU (handleText envW midWeightW senderW "➕ Add Profile").srv.users 7).map
        (fun u => u.profiles.length) = some 2
    ∧ getSt (handleText envW midWeightW senderW "➕ Add Profile").srv.states 7
        = some { step := "edit_profile_weight", data := { profileId := some "pA" } } := by
  decide

/-- The steps with numeric validation named by claim C4. -/
def numSteps : List String :=
  ["edit_profile_full", "edit_profile_weight", "edit_profile_height",
   "editing_profile_age", "editing_profile_weight", "editing_profile_height",
   "editing_profile_timeavailability"]

/-- C4, amended.  At every numeric-validation step, an input that neither
parses as a number nor matches a menu label or command leaves the entire
server state unchanged (same step, no persisted mutation); the handler only
re-prompts.  (A non-numeric input that matches a menu label is intercepted by
that menu handler and can mutate persisted state, as the counterexample
shows.) -/
theorem claim4_nonnumeric_no_mutation (env : Env) (s : ServerState) (sender : Sender)
    (t : String) (st : Sess)
    (hst : getSt s.states sender.id = some st) (hstep : st.step ∈ numSteps)
    (hn : jsNumber (jsTrim t) = none) (hni : NotIntercepted t) :
    (handleText env s sender t).srv = s := by
  simp only [numSteps, List.mem_cons, List.not_mem_nil, or_false] at hstep
  rcases hstep with hc|hc|hc|hc|hc|hc|hc
  · have hd : mwDispatch env s sender t
        = some (s, [Effect.reply "Please send a number for age."]) := by
      simp [mwDispatch, hst, hc, hn]
    rw [handleText_dispatch env s sender t _ hni hd]
  · have hd : mwDispatch env s sender t
        = some (s, [Effect.reply "Send numeric weight in kg."]) := by
      simp [mwDispatch, hst, hc, hn]
    rw [handleText_dispatch env s sender t _ hni hd]
  · have hd : mwDispatch env s sender t
        = some (s, [Effect.reply "Send numeric height in cm."]) := by
      simp [mwDispatch, hst, hc, hn]
    rw [handleText_dispatch env s sender t _ hni hd]
  all_goals
    cases hfu : findU s.users sender.id with
    | none =>
      have hd : mwDispatch env s sender t = some (s, [Effect.crash]) := by
        simp [mwDispatch, hst, hc, hfu]
      rw [handleText_dispatch env s sender t _ hni hd]
    | some user =>
      have hd : mwDispatch env s sender t = some (s, [Effect.reply "Send a number."]) := by
        simp [mwDispatch, hst, hc, hn, hfu,
          show "editing_profile_age".drop 16 = "age" from rfl,
          show "editing_profile_weight".drop 16 = "weight" from rfl,
          show "editing_profile_height".drop 16 = "height" from rfl,
          show "editing_profile_timeavailability".drop 16 = "timeavailability" from rfl]
      rw [handleText_dispatch env s sender t _ hni hd]

/-- C4, witness: non-numeric, non-menu text `abc` at the weight step changes
nothing. -/
theorem claim4_witness :
    (handleText envW midWeightW senderW "abc").srv = midWeightW :=
  claim4_nonnumeric_no_mutation envW midWeightW senderW "abc"
    { step := "edit_profile_weight", data := { profileId := some "pA" } }
    (by decide) (by decide) (by decide) (by decide)

/-! ## List lemmas about the store operations -/

/-- Saving a document rewrites exactly the found document of the same id. -/
theorem findU_saveU (l : List User) (u2 : User) (id : Nat) :
    findU (saveU l u2) id
      = (findU l id).map (fun u => if u.telegramId == u2.telegramId then u2 else u) := by
  unfold findU saveU
  rw [List.find?_map]
  have hpe : ((fun u : User => u.telegramId == id)
      ∘ (fun v => if v.telegramId == u2.telegramId then u2 else v))
      = (fun u : User => u.telegramId == id) := by
    funext u
    simp only [Function.comp]
    by_cases h : u.telegramId == u2.telegramId
    · rw [if_pos h, ← eq_of_beq h]
    · rw [if_neg h]
  rw [hpe]

/-- Saving the modified copy of the found document makes the modified copy the
found document. -/
theorem findU_saveU_self (l : List User) (u u2 : User) (id : Nat)
    (h : findU l id = some u) (he : u2.telegramId = u.telegramId) :
    findU (saveU l u2) id = some u2 := by
  have hb : (u.telegramId == u2.telegramId) = true := by rw [he]; exact beq_self_eq_true _
  rw [findU_saveU, h]
  show some (if u.telegramId == u2.telegramId then u2 else u) = some u2
  rw [if_pos hb]

/-- Deleting a session from the store makes its lookup fail. -/
theorem getSt_delSt (l : List (Nat × Sess)) (id : Nat) : getSt (delSt l id) id = none := by
  unfold getSt delSt
  have hf : (l.filter (fun p => !(p.1 == id))).find? (fun p => p.1 == id) = none := by
    rw [List.find?_eq_none]
    intro x hx
    have hx2 := (List.mem_filter.mp hx).2
    simp only [Bool.not_eq_true'] at hx2
    simp [hx2]
  rw [hf]
  rfl

/-- Setting a session makes its lookup return it. -/
theorem getSt_setSt (l : List (Nat × Sess)) (id : Nat) (st : Sess) :
    getSt (setSt l id st) id = some st := by
  unfold getSt setSt
  rw [List.find?_cons_of_pos _ (by simp)]
  rfl

/-- A member whose image is not the image of the erased position survives
`eraseIdx` (used for the active-profile pointer after a delete). -/
theorem mem_map_eraseIdx (l : List Profile) (k : Nat) (x : String)
    (hx : x ∈ l.map (fun p => p.id)) (hk : ∀ e, l.get? k = some e → e.id ≠ x) :
    x ∈ (l.eraseIdx k).map (fun p => p.id) := by
  induction l generalizing k with
  | nil => simp at hx
  | cons a as ih =>
    cases k with
    | zero =>
      rw [List.eraseIdx_cons_zero]
      rcases List.mem_map.mp hx with ⟨p, hp, hpx⟩
      cases hp with
      | head => exact absurd hpx (hk a rfl)
      | tail _ hp => exact List.mem_map.mpr ⟨p, hp, hpx⟩
    | succ n =>
      rw [List.eraseIdx_cons_succ, List.map_cons]
      rcases List.mem_map.mp hx with ⟨p, hp, hpx⟩
      cases hp with
      | head =>
        rw [← hpx]
        exact List.mem_cons_self _ _
      | tail _ hp =>
        exact List.mem_cons_of_mem _
          (ih n (List.mem_map.mpr ⟨p, hp, hpx⟩) (fun e he => hk e he))

/-- Erasing one position from a list of length at least two leaves a nonempty
list. -/
theorem eraseIdx_ne_nil (l : List Profile) (k : Nat) (h2 : 2 ≤ l.length) :
    l.eraseIdx k ≠ [] := by
  cases l with
  | nil => simp at h2
  | cons a as =>
    cases k with
    | zero =>
      rw [List.eraseIdx_cons_zero]
      cases as with
      | nil => simp at h2
      | cons b bs => simp
    | succ n => simp [List.eraseIdx_cons_succ]

/-! ## Claim C7 -/

/-- C7.  In the delete-profile flow, for a numeric input: an out-of-range index
changes nothing; deleting the only remaining profile is rejected without
removing anything; a successful delete erases exactly the chosen profile and
re-points `activeProfileId` to the first remaining profile when the active one
was deleted, leaving it unchanged otherwise — so after every delete turn the
user still has at least one profile and `activeProfileId` resolves to a member
of the profile collection. -/
theorem claim7_delete_profile (env : Env) (s : ServerState) (sender : Sender)
    (t : String) (st : Sess) (idx : Int) (user : User)
    (hst : getSt s.states sender.id = some st) (hstep : st.step = "delete_profile")
    (hn : jsNumber (jsTrim t) = some idx)
    (hu : findU s.users sender.id = some user)
    (hinv : user.profiles ≠ [] ∧ user.activeProfileId ∈ user.profiles.map (fun p => p.id)) :
    ((idx < 1 ∨ idx > (user.profiles.length : Int)) → (handleText env s sender t).srv = s)
    ∧ (¬(idx < 1 ∨ idx > (user.profiles.length : Int)) → user.profiles.length = 1 →
        (handleText env s sender t).srv = s
        ∧ (handleText env s sender t).effs = [Effect.reply "Cannot delete last profile."])
    ∧ (∀ removed, ¬(idx < 1 ∨ idx > (user.profiles.length : Int)) →
        user.profiles.length ≠ 1 →
        user.profiles.get? (idx - 1).toNat = some removed →
        ∃ u2, findU (handleText env s sender t).srv.users sender.id = some u2
          ∧ u2.profiles = user.profiles.eraseIdx (idx - 1).toNat
          ∧ ((user.activeProfileId = removed.id
                ∧ ∃ p0, (user.profiles.eraseIdx (idx - 1).toNat).head? = some p0
                  ∧ u2.activeProfileId = p0.id)
             ∨ (user.activeProfileId ≠ removed.id
                ∧ u2.activeProfileId = user.activeProfileId))
          ∧ u2.profiles ≠ []
          ∧ u2.activeProfileId ∈ u2.profiles.map (fun p => p.id)
          ∧ getSt (handleText env s sender t).srv.states sender.id = none) := by
  have hni := numeric_NotIntercepted t idx hn
  refine ⟨?_, ?_, ?_⟩
  · intro hir
    have hd : mwDispatch env s sender t = some (s, [Effect.reply "Invalid number."]) := by
      simp [mwDispatch, hst, hstep, hn, hu, hir]
    rw [handleText_dispatch env s sender t _ hni hd]
  · intro hir hlen
    have hidx : idx = 1 := by
      rw [not_or, not_lt, not_lt] at hir
      omega
    have hd : mwDispatch env s sender t
        = some (s, [Effect.reply "Cannot delete last profile."]) := by
      simp [mwDispatch, hst, hstep, hn, hu, hlen, hidx]
    rw [handleText_dispatch env s sender t _ hni hd]
    exact ⟨rfl, rfl⟩
  · intro removed hir hlen hrm
    have hb := not_or.mp hir
    rw [not_lt] at hb
    have hidx1 : 1 ≤ idx := hb.1
    have htn : (idx - 1).toNat = idx.toNat - 1 := by omega
    have hlen2 : 2 ≤ user.profiles.length := by
      have h0 : user.profiles.length ≠ 0 := fun h0 => hinv.1 (List.length_eq_zero.mp h0)
      omega
    rw [htn] at hrm ⊢
    rw [List.get?_eq_getElem?] at hrm
    have hne := eraseIdx_ne_nil user.profiles (idx.toNat - 1) hlen2
    by_cases hact : user.activeProfileId = removed.id
    · obtain ⟨p0, hh⟩ : ∃ p0, (user.profiles.eraseIdx (idx.toNat - 1)).head? = some p0 := by
        cases hh : (user.profiles.eraseIdx (idx.toNat - 1)).head? with
        | none => exact absurd (List.head?_eq_none_iff.mp hh) hne
        | some p0 => exact ⟨p0, rfl⟩
      have hd : mwDispatch env s sender t = some
          (setStates (setUsers s (saveU s.users
            { user with profiles := user.profiles.eraseIdx (idx.toNat - 1),
                        activeProfileId := p0.id }))
            (delSt s.states sender.id), [Effect.reply "Profile deleted."]) := by
        simp [mwDispatch, hst, hstep, hn, hu, hir, hlen, hrm, hact, hh, htn]
      rw [handleText_dispatch env s sender t _ hni hd]
      refine ⟨_, findU_saveU_self s.users user _ sender.id hu rfl, rfl, ?_, hne, ?_, ?_⟩
      · exact Or.inl ⟨hact, p0, hh, rfl⟩
      · exact List.mem_map.mpr ⟨p0, List.mem_of_mem_head? (hh ▸ rfl), rfl⟩
      · exact getSt_delSt s.states sender.id
    · have hd : mwDispatch env s sender t = some
          (setStates (setUsers s (saveU s.users
            { user with profiles := user.profiles.eraseIdx (idx.toNat - 1) }))
            (delSt s.states sender.id), [Effect.reply "Profile deleted."]) := by
        simp [mwDispatch, hst, hstep, hn, hu, hir, hlen, hrm, hact, htn]
      rw [handleText_dispatch env s sender t _ hni hd]
      refine ⟨_, findU_saveU_self s.users user _ sender.id hu rfl, rfl, Or.inr ⟨hact, rfl⟩,
        hne, ?_, ?_⟩
      · refine mem_map_eraseIdx user.profiles (idx.toNat - 1) user.activeProfileId hinv.2 ?_
        intro e he
        rw [List.get?_eq_getElem?, hrm] at he
        cases he
        exact fun hx => hact hx.symm
      · exact getSt_delSt s.states sender.id

/-- A fixture user owning two profiles, the first active. -/
def userTwoW : User :=
  { telegramId := 7, profiles := [{ id := "a" }, { id := "b" }],
    activeProfileId := "a" }

/-- Server state in which that user is in the delete-profile flow. -/
def twoProfW : ServerState :=
  { users := [userTwoW], states := [(7, ⟨"delete_profile", {}⟩)] }

/-- C7, witness: deleting profile 1 (the active one) of two re-points the
active pointer to the remaining profile and the invariant holds. -/
theorem claim7_witness :
    ∃ u2, findU (handleText envW twoProfW senderW "1").srv.users 7 = some u2
      ∧ u2.profiles = ([{ id := "a" }, { id := "b" }] : List Profile).eraseIdx (1 - 1)
      ∧ (("a" = ("a" : String)
            ∧ ∃ p0, (([{ id := "a" }, { id := "b" }] : List Profile).eraseIdx (1 - 1)).head? = some p0
              ∧ u2.activeProfileId = p0.id)
         ∨ ("a" ≠ ("a" : String) ∧ u2.activeProfileId = "a"))
      ∧ u2.profiles ≠ []
      ∧ u2.activeProfileId ∈ u2.profiles.map (fun p => p.id)
      ∧ getSt (handleText envW twoProfW senderW "1").srv.states 7 = none :=
  (claim7_delete_profile envW twoProfW senderW "1" ⟨"delete_profile", {}⟩ 1 userTwoW
    (by decide) rfl (by decide) (by decide) (by decide)).2.2
    { id := "a" } (by decide) (by decide) (by decide)

/-! ## More list lemmas for the onboarding chain -/

/-- A lookup that fails on `l` succeeds on `l ++ [u]` exactly for `u`. -/
theorem findU_append_right (l : List User) (u : User) (id : Nat)
    (h : findU l id = none) (hu : (u.telegramId == id) = true) :
    findU (l ++ [u]) id = some u := by
  unfold findU at *
  rw [List.find?_append, h]
  simp [hu]

/-- Saving a document that matches nothing in the list changes nothing. -/
theorem saveU_of_not_found (l : List User) (u2 : User) :
    (∀ v ∈ l, (v.telegramId == u2.telegramId) = false) → saveU l u2 = l := by
  induction l with
  | nil => intro _; rfl
  | cons a as ih =>
    intro h
    have hc := h a (List.mem_cons_self a as)
    have ht := ih (fun v hv => h v (List.mem_cons_of_mem a hv))
    unfold saveU at ht ⊢
    rw [List.map_cons, ht]
    simp [hc]

/-- Saving an update of the last, uniquely-matching document rewrites exactly
that document. -/
theorem saveU_append_found (l : List User) (u u2 : User)
    (h : ∀ v ∈ l, (v.telegramId == u2.telegramId) = false)
    (hu : u.telegramId = u2.telegramId) : saveU (l ++ [u]) u2 = l ++ [u2] := by
  have h1 := saveU_of_not_found l u2 h
  unfold saveU at h1 ⊢
  rw [List.map_append, h1]
  simp [hu]

/-- The selected profile of a single-profile user is that profile. -/
theorem targetProf_singleton (u : User) (p : Profile) (hp : u.profiles = [p]) :
    targetProf u (some p.id) = some (0, p) := by
  unfold targetProf
  rw [hp]
  simp

/-- One turn of the pipeline, viewed as a state transformer. -/
def turn (env : Env) (sender : Sender) (t : String) (s : ServerState) : ServerState :=
  (handleText env s sender t).srv

/-! ## Claim C3 -/

/-- Dispatcher equation for the onboarding age step. -/
theorem dispatch_age (env : Env) (s : ServerState) (sender : Sender) (t : String)
    (st : Sess) (v : Int) (user : User) (i : Nat) (prof : Profile)
    (hst : getSt s.states sender.id = some st) (hc : st.step = "edit_profile_full")
    (hn : jsNumber (jsTrim t) = some v) (hu : findU s.users sender.id = some user)
    (hp : targetProf user st.data.profileId = some (i, prof)) :
    mwDispatch env s sender t = some
      (setStates (setUsers s (saveU s.users
          { user with profiles := user.profiles.set i { prof with age := some v } }))
        (setSt s.states sender.id ⟨"edit_profile_weight", { profileId := some prof.id }⟩),
       [Effect.reply "Send weight in kg (number)."]) := by
  simp [mwDispatch, hst, hc, hn, hu, hp]

/-- Dispatcher equation for the onboarding weight step. -/
theorem dispatch_weight (env : Env) (s : ServerState) (sender : Sender) (t : String)
    (st : Sess) (v : Int) (user : User) (i : Nat) (prof : Profile)
    (hst : getSt s.states sender.id = some st) (hc : st.step = "edit_profile_weight")
    (hn : jsNumber (jsTrim t) = some v) (hu : findU s.users sender.id = some user)
    (hp : targetProf user st.data.profileId = some (i, prof)) :
    mwDispatch env s sender t = some
      (setStates (setUsers s (saveU s.users
          { user with profiles := user.profiles.set i { prof with weightKg := some v },
                      weightHistory := user.weightHistory ++ [⟨prof.id, v, env.now⟩] }))
        (setSt s.states sender.id ⟨"edit_profile_height", { profileId := some prof.id }⟩),
       [Effect.reply "Send height in cm (number)."]) := by
  simp [mwDispatch, hst, hc, hn, hu, hp]

/-- Dispatcher equation for the onboarding height step (terminal). -/
theorem dispatch_height (env : Env) (s : ServerState) (sender : Sender) (t : String)
    (st : Sess) (v : Int) (user : User) (i : Nat) (prof : Profile)
    (hst : getSt s.states sender.id = some st) (hc : st.step = "edit_profile_height")
    (hn : jsNumber (jsTrim t) = some v) (hu : findU s.users sender.id = some user)
    (hp : targetProf user st.data.profileId = some (i, prof)) :
    mwDispatch env s sender t = some
      (setStates (setUsers s (saveU s.users
          { user with profiles := user.profiles.set i { prof with heightCm := some v } }))
        (delSt s.states sender.id),
       [Effect.reply "Profile updated. Use the menu."]) := by
  simp [mwDispatch, hst, hc, hn, hu, hp]

/-- C3.  For every new user, `/start` creates a default profile and sets the
session to the first onboarding step; then three turns of valid numeric input
advance the session exactly one step per turn along the fixed linear chain
age to weight to height, and clear the session after the third input — with
`age`, `weightKg`, `heightCm` set to the three inputs and exactly one weight
history record appended at the weight step. -/
theorem claim3_onboarding_chain (env : Env) (s : ServerState) (sender : Sender)
    (t1 t2 t3 : String) (v1 v2 v3 : Int)
    (hnew : findU s.users sender.id = none)
    (h1 : jsNumber (jsTrim t1) = some v1) (h2 : jsNumber (jsTrim t2) = some v2)
    (h3 : jsNumber (jsTrim t3) = some v3) :
    getSt (turn env sender "/start" s).states sender.id
        = some ⟨"edit_profile_full", { profileId := some env.freshId }⟩
    ∧ (turn env sender "/start" s).users = s.users ++ [startUser env sender]
    ∧ getSt (turn env sender t1 (turn env sender "/start" s)).states sender.id
        = some ⟨"edit_profile_weight", { profileId := some env.freshId }⟩
    ∧ (turn env sender t1 (turn env sender "/start" s)).users
        = s.users ++ [{ startUser env sender with
            profiles := [{ startProfile env sender with age := some v1 }] }]
    ∧ getSt (turn env sender t2 (turn env sender t1 (turn env sender "/start" s))).states
          sender.id
        = some ⟨"edit_profile_height", { profileId := some env.freshId }⟩
    ∧ (turn env sender t2 (turn env sender t1 (turn env sender "/start" s))).users
        = s.users ++ [{ startUser env sender with
            profiles := [{ startProfile env sender with age := some v1, weightKg := some v2 }],
            weightHistory := [⟨env.freshId, v2, env.now⟩] }]
    ∧ getSt (turn env sender t3 (turn env sender t2 (turn env sender t1
          (turn env sender "/start" s)))).states sender.id = none
    ∧ (turn env sender t3 (turn env sender t2 (turn env sender t1
          (turn env sender "/start" s)))).users
        = s.users ++ [{ startUser env sender with
            profiles := [{ startProfile env sender with
              age := some v1, weightKg := some v2, heightCm := some v3 }],
            weightHistory := [⟨env.freshId, v2, env.now⟩] }] := by
  have hni1 := numeric_NotIntercepted t1 v1 h1
  have hni2 := numeric_NotIntercepted t2 v2 h2
  have hni3 := numeric_NotIntercepted t3 v3 h3
  have hnotin : ∀ v ∈ s.users, (v.telegramId == sender.id) = false := by
    intro v hv
    have hnv := List.find?_eq_none.mp hnew v hv
    simpa using hnv
  -- stage 0: /start
  have h0 : turn env sender "/start" s
      = setStates (setUsers s (s.users ++ [startUser env sender]))
          (setSt s.states sender.id
            ⟨"edit_profile_full", { profileId := some env.freshId }⟩) := by
    simp [turn, handleText, mwStart, hnew, show isCmd "/start" "/start" = true from rfl,
      startProfile]
  -- stage 1: age
  have hfind0 : findU (s.users ++ [startUser env sender]) sender.id
      = some (startUser env sender) :=
    findU_append_right s.users (startUser env sender) sender.id hnew (by simp [startUser])
  have htp0 : targetProf (startUser env sender) (some env.freshId)
      = some (0, startProfile env sender) :=
    targetProf_singleton (startUser env sender) (startProfile env sender) rfl
  have hd1 := dispatch_age env (turn env sender "/start" s) sender t1
    ⟨"edit_profile_full", { profileId := some env.freshId }⟩ v1
    (startUser env sender) 0 (startProfile env sender)
    (by rw [h0]; exact getSt_setSt _ _ _) rfl h1
    (by rw [h0]; exact hfind0) htp0
  have hs1 : turn env sender t1 (turn env sender "/start" s)
      = setStates (setUsers (turn env sender "/start" s)
            (s.users ++ [{ startUser env sender with
              profiles := [{ startProfile env sender with age := some v1 }] }]))
          (setSt (turn env sender "/start" s).states sender.id
            ⟨"edit_profile_weight", { profileId := some env.freshId }⟩) := by
    show (handleText env (turn env sender "/start" s) sender t1).srv = _
    rw [handleText_dispatch env _ sender t1 _ hni1 hd1]
    show setStates (setUsers (turn env sender "/start" s)
        (saveU (turn env sender "/start" s).users _))
      (setSt (turn env sender "/start" s).states sender.id _) = _
    rw [h0]
    simp only [setStates_users, setUsers_users, setStates_states, setUsers_states]
    rw [saveU_append_found s.users _ _ (by intro v hv; exact hnotin v hv) (by rfl)]
    rfl
  have hst1 : getSt (turn env sender t1 (turn env sender "/start" s)).states sender.id
      = some ⟨"edit_profile_weight", { profileId := some env.freshId }⟩ := by
    rw [hs1]
    exact getSt_setSt _ _ _
  have husers1 : (turn env sender t1 (turn env sender "/start" s)).users
      = s.users ++ [{ startUser env sender with
          profiles := [{ startProfile env sender with age := some v1 }] }] := by
    rw [hs1]
    rfl
  -- stage 2: weight
  have hfind1 : findU (s.users ++ [{ startUser env sender with
        profiles := [{ startProfile env sender with age := some v1 }] }]) sender.id
      = some { startUser env sender with
          profiles := [{ startProfile env sender with age := some v1 }] } :=
    findU_append_right s.users _ sender.id hnew (by simp [startUser])
  have htp1 : targetProf { startUser env sender with
        profiles := [{ startProfile env sender with age := some v1 }] }
        (some env.freshId)
      = some (0, { startProfile env sender with age := some v1 }) :=
    targetProf_singleton _ { startProfile env sender with age := some v1 } rfl
  have hd2 := dispatch_weight env (turn env sender t1 (turn env sender "/start" s)) sender t2
    ⟨"edit_profile_weight", { profileId := some env.freshId }⟩ v2
    { startUser env sender with
      profiles := [{ startProfile env sender with age := some v1 }] } 0
    { startProfile env sender with age := some v1 }
    hst1 rfl h2 (by rw [husers1]; exact hfind1) htp1
  have hs2 : turn env sender t2 (turn env sender t1 (turn env sender "/start" s))
      = setStates (setUsers (turn env sender t1 (turn env sender "/start" s))
            (s.users ++ [{ startUser env sender with
              profiles := [{ startProfile env sender with
                age := some v1, weightKg := some v2 }],
              weightHistory := [⟨env.freshId, v2, env.now⟩] }]))
          (setSt (turn env sender t1 (turn env sender "/start" s)).states sender.id
            ⟨"edit_profile_height", { profileId := some env.freshId }⟩) := by
    show (handleText env (turn env sender t1 (turn env sender "/start" s)) sender t2).srv = _
    rw [handleText_dispatch env _ sender t2 _ hni2 hd2]
    show setStates (setUsers (turn env sender t1 (turn env sender "/start" s))
        (saveU (turn env sender t1 (turn env sender "/start" s)).users _))
      (setSt (turn env sender t1 (turn env sender "/start" s)).states sender.id _) = _
    rw [hs1]
    simp only [setStates_users, setUsers_users, setStates_states, setUsers_states]
    rw [saveU_append_found s.users _ _ (by intro v hv; exact hnotin v hv) (by rfl)]
    rfl
  have hst2 : getSt (turn env sender t2 (turn env sender t1
        (turn env sender "/start" s))).states sender.id
      = some ⟨"edit_profile_height", { profileId := some env.freshId }⟩ := by
    rw [hs2]
    exact getSt_setSt _ _ _
  have husers2 : (turn env sender t2 (turn env sender t1 (turn env sender "/start" s))).users
      = s.users ++ [{ startUser env sender with
          profiles := [{ startProfile env sender with age := some v1, weightKg := some v2 }],
          weightHistory := [⟨env.freshId, v2, env.now⟩] }] := by
    rw [hs2]
    rfl
  -- stage 3: height, terminal
  have hfind2 : findU (s.users ++ [{ startUser env sender with
        profiles := [{ startProfile env sender with age := some v1, weightKg := some v2 }],
        weightHistory := [⟨env.freshId, v2, env.now⟩] }]) sender.id
      = some { startUser env sender with
          profiles := [{ startProfile env sender with age := some v1, weightKg := some v2 }],
          weightHistory := [⟨env.freshId, v2, env.now⟩] } :=
    findU_append_right s.users _ sender.id hnew (by simp [startUser])
  have htp2 : targetProf { startUser env sender with
        profiles := [{ startProfile env sender with age := some v1, weightKg := some v2 }],
        weightHistory := [⟨env.freshId, v2, env.now⟩] } (some env.freshId)
      = some (0, { startProfile env sender with age := some v1, weightKg := some v2 }) :=
    targetProf_singleton _ { startProfile env sender with
      age := some v1, weightKg := some v2 } rfl
  have hd3 := dispatch_height env (turn env sender t2 (turn env sender t1
      (turn env sender "/start" s))) sender t3
    ⟨"edit_profile_height", { profileId := some env.freshId }⟩ v3
    { startUser env sender with
      profiles := [{ startProfile env sender with age := some v1, weightKg := some v2 }],
      weightHistory := [⟨env.freshId, v2, env.now⟩] } 0
    { startProfile env sender with age := some v1, weightKg := some v2 }
    hst2 rfl h3 (by rw [husers2]; exact hfind2) htp2
  have hs3 : turn env sender t3 (turn env sender t2 (turn env sender t1
        (turn env sender "/start" s)))
      = setStates (setUsers (turn env sender t2 (turn env sender t1
              (turn env sender "/start" s)))
            (s.users ++ [{ startUser env sender with
              profiles := [{ startProfile env sender with
                age := some v1, weightKg := some v2, heightCm := some v3 }],
              weightHistory := [⟨env.freshId, v2, env.now⟩] }]))
          (delSt (turn env sender t2 (turn env sender t1
              (turn env sender "/start" s))).states sender.id) := by
    show (handleText env (turn env sender t2 (turn env sender t1
      (turn env sender "/start" s))) sender t3).srv = _
    rw [handleText_dispatch env _ sender t3 _ hni3 hd3]
    show setStates (setUsers (turn env sender t2 (turn env sender t1
        (turn env sender "/start" s)))
        (saveU (turn env sender t2 (turn env sender t1
          (turn env sender "/start" s))).users _))
      (delSt (turn env sender t2 (turn env sender t1
        (turn env sender "/start" s))).states sender.id) = _
    rw [hs2]
    simp only [setStates_users, setUsers_users, setStates_states, setUsers_states]
    rw [saveU_append_found s.users _ _ (by intro v hv; exact hnotin v hv) (by rfl)]
    rfl
  refine ⟨?_, ?_, hst1, husers1, hst2, husers2, ?_, ?_⟩
  · rw [h0]; exact getSt_setSt _ _ _
  · rw [h0]; rfl
  · rw [hs3]; exact getSt_delSt _ _
  · rw [hs3]; rfl

/-- C3, witness: the full `/start`, 29, 82, 180 scenario for a fresh user. -/
theorem claim3_witness :
    getSt (turn envW senderW "180" (turn envW senderW "82" (turn envW senderW "29"
        (turn envW senderW "/start" {})))).states 7 = none
    ∧ (turn envW senderW "180" (turn envW senderW "82" (turn envW senderW "29"
        (turn envW senderW "/start" {})))).users
      = [] ++ [{ startUser envW senderW with
          profiles := [{ startProfile envW senderW with
            age := some 29, weightKg := some 82, heightCm := some 180 }],
          weightHistory := [⟨"uuid-0", 82, 0⟩] }] :=
  ⟨(claim3_onboarding_chain envW {} senderW "29" "82" "180" 29 82 180
      (by decide) (by decide) (by decide) (by decide)).2.2.2.2.2.2.1,
   (claim3_onboarding_chain envW {} senderW "29" "82" "180" 29 82 180
      (by decide) (by decide) (by decide) (by decide)).2.2.2.2.2.2.2⟩

/-! ## Claim C8 -/

/-- Folding the broadcast loop body over any accumulator appends exactly one
send attempt per user and adds the success and failure tallies: no element of
the list is skipped, so a failed send never aborts the loop. -/
theorem bcastLoop1_go (env : Env) (msg : String) (users : List User) :
    ∀ (es : List Effect) (a b : Nat),
    users.foldl (fun acc u =>
      if env.sendOk u.telegramId then
        (acc.1 ++ [Effect.tell u.telegramId msg], acc.2.1 + 1, acc.2.2)
      else (acc.1 ++ [Effect.tell u.telegramId msg], acc.2.1, acc.2.2 + 1)) (es, a, b)
    = (es ++ users.map (fun u => Effect.tell u.telegramId msg),
       a + (users.filter (fun u => env.sendOk u.telegramId)).length,
       b + (users.filter (fun u => !env.sendOk u.telegramId)).length) := by
  induction users with
  | nil => intro es a b; simp
  | cons u us ih =>
    intro es a b
    by_cases h : env.sendOk u.telegramId = true
    · rw [List.foldl_cons, if_pos h, ih]
      simp [List.filter_cons, h, Prod.ext_iff]
      omega
    · rw [List.foldl_cons, if_neg h, ih]
      simp [List.filter_cons, h, Prod.ext_iff]
      omega

/-- Closed form of the first broadcast loop: one send attempt per user, the
success count is the number of users the transport accepts, the failure count
the number it rejects. -/
theorem bcastLoop1_spec (env : Env) (users : List User) (msg : String) :
    bcastLoop1 env users msg
    = (users.map (fun u => Effect.tell u.telegramId msg),
       (users.filter (fun u => env.sendOk u.telegramId)).length,
       (users.filter (fun u => !env.sendOk u.telegramId)).length) := by
  unfold bcastLoop1
  rw [bcastLoop1_go]
  simp

/-- A list splits into the elements satisfying a Boolean predicate and those
falsifying it. -/
theorem length_filter_add_length_filter_not {α : Type} (p : α → Bool) (l : List α) :
    (l.filter p).length + (l.filter (fun x => !p x)).length = l.length := by
  induction l with
  | nil => rfl
  | cons x xs ih =>
    by_cases h : p x = true
    · simp [List.filter_cons, h]
      omega
    · simp [List.filter_cons, h]
      omega

/-- C8.  On a broadcast turn — an elevated admin whose session step is
`admin_broadcast` sending any non-intercepted text — the dispatcher runs the
fan-out to completion over all N stored users: one send attempt per user (a
send failure is caught and counted, never aborting the loop), and the final
reply to the admin reports exactly sent = N - K and failed = K, where K is the
number of users whose send fails; the session is cleared. -/
theorem claim8_broadcast_report (env : Env) (s : ServerState) (sender : Sender)
    (t : String) (st : Sess) (hni : NotIntercepted t)
    (hst : getSt s.states sender.id = some st) (hstep : st.step = "admin_broadcast")
    (hadm : isAdmin s sender.id = true) :
    handleText env s sender t
    = ⟨setStates s (delSt s.states sender.id),
       s.users.map (fun u =>
           Effect.tell u.telegramId ("📢 Message from Admin:\n\n" ++ jsTrim t))
         ++ [Effect.reply ("Broadcast complete. Sent "
             ++ toString (s.users.length
                 - (s.users.filter (fun u => !env.sendOk u.telegramId)).length)
             ++ ", failed "
             ++ toString (s.users.filter (fun u => !env.sendOk u.telegramId)).length
             ++ ".")],
       "state_dispatch"⟩ := by
  have hk : (s.users.filter (fun u => env.sendOk u.telegramId)).length
      = s.users.length - (s.users.filter (fun u => !env.sendOk u.telegramId)).length := by
    have h := length_filter_add_length_filter_not
      (fun u => env.sendOk u.telegramId) s.users
    omega
  have hd : mwDispatch env s sender t
      = some (setStates s (delSt s.states sender.id),
          s.users.map (fun u =>
              Effect.tell u.telegramId ("📢 Message from Admin:\n\n" ++ jsTrim t))
            ++ [Effect.reply ("Broadcast complete. Sent "
                ++ toString (s.users.filter (fun u => env.sendOk u.telegramId)).length
                ++ ", failed "
                ++ toString (s.users.filter (fun u => !env.sendOk u.telegramId)).length
                ++ ".")]) := by
    simp [mwDispatch, hst, hstep, hadm, bcastLoop1_spec]
  rw [handleText_dispatch env s sender t _ hni hd, hk]

/-- Environment in which the transport rejects exactly user 9. -/
def env8W : Env := { sendOk := fun id => id != 9 }

/-- Server state with two stored users (8 accepted, 9 rejected by the
transport) and the fixture admin 7 elevated and mid-broadcast. -/
def bcastW : ServerState :=
  { users := [{ telegramId := 8 }, { telegramId := 9 }],
    states := [(7, { step := "admin_broadcast" })],
    adminSessions := [7] }

/-- C8, witness: broadcasting "hello" over users 8 and 9, where the send to 9
fails, reports "Sent 1, failed 1" and attempts both sends. -/
theorem claim8_witness :
    handleText env8W bcastW senderW "hello"
    = ⟨setStates bcastW (delSt bcastW.states 7),
       [Effect.tell 8 "📢 Message from Admin:\n\nhello",
        Effect.tell 9 "📢 Message from Admin:\n\nhello",
        Effect.reply "Broadcast complete. Sent 1, failed 1."],
       "state_dispatch"⟩ :=
  claim8_broadcast_report env8W bcastW senderW "hello" ⟨"admin_broadcast", {}⟩
    (by decide) (by decide) (by decide) (by decide)

/-! ## Claim C5: elevation bookkeeping across the pipeline -/

/-- Membership in the elevation set survives a grant. -/
theorem mem_addAdmin (l : List Nat) (id a : Nat) (h : a ∈ l) : a ∈ addAdmin l id := by
  unfold addAdmin
  split
  · exact h
  · exact List.mem_cons_of_mem _ h

/-- A grant puts the grantee in the elevation set. -/
theorem contains_addAdmin (l : List Nat) (id : Nat) : (addAdmin l id).contains id = true := by
  unfold addAdmin
  split
  · assumption
  · simp

/-- Removing one id from the elevation set keeps every other member. -/
theorem mem_delAdmin (l : List Nat) (id a : Nat) (h : a ∈ l) (hne : a ≠ id) :
    a ∈ delAdmin l id := by
  unfold delAdmin
  refine List.mem_filter.mpr ⟨h, ?_⟩
  simp [hne]

/-- `/start` never touches the elevation set. -/
theorem mwStart_admin (env : Env) (s : ServerState) (sender : Sender) (t : String)
    (p : ServerState × List Effect) (h : mwStart env s sender t = some p) :
    p.1.adminSessions = s.adminSessions := by
  simp only [mwStart] at h
  repeat' split at h
  all_goals cases h
  all_goals rfl

/-- No main-menu handler touches the elevation set. -/
theorem mwHears1_admin (env : Env) (s : ServerState) (sender : Sender) (t : String)
    (r : MwOut) (h : mwHears1 env s sender t = some r) :
    r.srv.adminSessions = s.adminSessions := by
  by_cases hmem : t ∈ allTriggers
  case neg =>
    rw [mwHears1_none env s sender t hmem] at h
    cases h
  simp only [allTriggers, List.mem_cons, List.not_mem_nil, or_false] at hmem
  rcases hmem with rfl|rfl|rfl|rfl|rfl|rfl|rfl|rfl|rfl|rfl|rfl|rfl|rfl|rfl|rfl|rfl|rfl|rfl|rfl|rfl|rfl|rfl|rfl|rfl|rfl|rfl|rfl|rfl|rfl|rfl|rfl|rfl|rfl|rfl|rfl|rfl|rfl
  all_goals simp [mwHears1] at h
  all_goals subst h
  all_goals simp only [tagged, hProfile, hEditProfile, hSwitchProfile, hAddProfile, hToday,
    hMyPlan, hBrowse, hViewMeals, hMacro, hProgress, hRemoveReminders, hChallenges]
  all_goals (repeat' split)
  all_goals rfl

/-- The state dispatcher either preserves the elevation set or — only in the
password-grant branch — adds the sender to it. -/
theorem mwDispatch_admin (env : Env) (s : ServerState) (sender : Sender) (t : String)
    (p : ServerState × List Effect) (h : mwDispatch env s sender t = some p) :
    p.1.adminSessions = s.adminSessions
    ∨ p.1.adminSessions = addAdmin s.adminSessions sender.id := by
  cases hget : getSt s.states sender.id with
  | none =>
    simp only [mwDispatch, hget] at h
    cases h
  | some st =>
    simp only [mwDispatch, hget] at h
    by_cases c1 : st.step = "await_admin_pass"
    case pos =>
      rw [if_pos c1] at h
      repeat' split at h
      all_goals cases h
      all_goals first
        | exact Or.inl rfl
        | exact Or.inr rfl
    rw [if_neg c1] at h
    by_cases c2 : st.step = "edit_profile_full"
    case pos =>
      rw [if_pos c2] at h
      repeat' split at h
      all_goals cases h
      all_goals exact Or.inl rfl
    rw [if_neg c2] at h
    by_cases c3 : st.step = "edit_profile_weight"
    case pos =>
      rw [if_pos c3] at h
      repeat' split at h
      all_goals cases h
      all_goals exact Or.inl rfl
    rw [if_neg c3] at h
    by_cases c4 : st.step = "edit_profile_height"
    case pos =>
      rw [if_pos c4] at h
      repeat' split at h
      all_goals cases h
      all_goals exact Or.inl rfl
    rw [if_neg c4] at h
    by_cases c5 : st.step = "editing_profile_field"
    case pos =>
      rw [if_pos c5] at h
      repeat' split at h
      all_goals cases h
      all_goals exact Or.inl rfl
    rw [if_neg c5] at h
    by_cases c6 : "editing_profile_".data <+: st.step.data
    case pos =>
      rw [if_pos c6] at h
      repeat' split at h
      all_goals cases h
      all_goals exact Or.inl rfl
    rw [if_neg c6] at h
    by_cases c7 : st.step = "switch_profile"
    case pos =>
      rw [if_pos c7] at h
      repeat' split at h
      all_goals cases h
      all_goals exact Or.inl rfl
    rw [if_neg c7] at h
    by_cases c8 : st.step = "delete_profile"
    case pos =>
      rw [if_pos c8] at h
      repeat' split at h
      all_goals cases h
      all_goals exact Or.inl rfl
    rw [if_neg c8] at h
    by_cases c9 : st.step = "browse_exercises"
    case pos =>
      rw [if_pos c9] at h
      repeat' split at h
      all_goals cases h
      all_goals exact Or.inl rfl
    rw [if_neg c9] at h
    by_cases c10 : st.step = "log_meal"
    case pos =>
      rw [if_pos c10] at h
      repeat' split at h
      all_goals cases h
      all_goals exact Or.inl rfl
    rw [if_neg c10] at h
    by_cases c11 : st.step = "set_daily_reminder"
    case pos =>
      rw [if_pos c11] at h
      repeat' split at h
      all_goals cases h
      all_goals exact Or.inl rfl
    rw [if_neg c11] at h
    by_cases c12 : st.step = "set_water_reminders"
    case pos =>
      rw [if_pos c12] at h
      repeat' split at h
      all_goals cases h
      all_goals exact Or.inl rfl
    rw [if_neg c12] at h
    by_cases c13 : st.step = "message_trainer"
    case pos =>
      rw [if_pos c13] at h
      repeat' split at h
      all_goals cases h
      all_goals exact Or.inl rfl
    rw [if_neg c13] at h
    by_cases c14 : isAdmin s sender.id ∧ st.step = "admin_broadcast"
    case pos =>
      rw [if_pos c14] at h
      cases h
      exact Or.inl rfl
    rw [if_neg c14] at h
    cases h

/-- Admin-reply forwarding never touches the elevation set. -/
theorem mwAdminReply_admin (env : Env) (s : ServerState) (sender : Sender) (t : String)
    (p : ServerState × List Effect) (h : mwAdminReply env s sender t = some p) :
    p.1.adminSessions = s.adminSessions := by
  simp only [mwAdminReply] at h
  repeat' split at h
  all_goals cases h
  all_goals rfl

/-- `/admin` never touches the elevation set. -/
theorem mwCmdAdmin_admin (env : Env) (s : ServerState) (sender : Sender) (t : String)
    (p : ServerState × List Effect) (h : mwCmdAdmin env s sender t = some p) :
    p.1.adminSessions = s.adminSessions := by
  simp only [mwCmdAdmin] at h
  repeat' split at h
  all_goals cases h
  all_goals rfl

/-- An admin-menu handler either preserves the elevation set or — only on the
explicit logout label — removes the sender from it. -/
theorem mwHears2_admin (env : Env) (s : ServerState) (sender : Sender) (t : String)
    (r : MwOut) (h : mwHears2 env s sender t = some r) :
    r.srv.adminSessions = s.adminSessions
    ∨ (t = "⬅️ Logout Admin"
        ∧ r.srv.adminSessions = delAdmin s.adminSessions sender.id) := by
  by_cases hmem : t ∈ allTriggers
  case neg =>
    rw [mwHears2_none env s sender t hmem] at h
    cases h
  simp only [allTriggers, List.mem_cons, List.not_mem_nil, or_false] at hmem
  rcases hmem with rfl|rfl|rfl|rfl|rfl|rfl|rfl|rfl|rfl|rfl|rfl|rfl|rfl|rfl|rfl|rfl|rfl|rfl|rfl|rfl|rfl|rfl|rfl|rfl|rfl|rfl|rfl|rfl|rfl|rfl|rfl|rfl|rfl|rfl|rfl|rfl|rfl
  all_goals simp [mwHears2] at h
  all_goals subst h
  all_goals simp only [tagged, hLogout, hUserMgmt, hAdminFlowEntry, hViewContent,
    hAnalytics, hFeedback]
  all_goals (repeat' split)
  all_goals first
    | exact Or.inl rfl
    | exact Or.inl trivial
    | exact Or.inr ⟨rfl, rfl⟩
    | exact Or.inr ⟨trivial, rfl⟩

/-- The admin-operation fallback never touches the elevation set. -/
theorem mwAdminOps_admin (env : Env) (s : ServerState) (sender : Sender) (t : String)
    (p : ServerState × List Effect) (h : mwAdminOps env s sender t = some p) :
    p.1.adminSessions = s.adminSessions := by
  simp only [mwAdminOps] at h
  repeat' split at h
  all_goals cases h
  all_goals rfl

/-- The data-deletion handler never touches the elevation set. -/
theorem mwHears3_admin (env : Env) (s : ServerState) (sender : Sender) (t : String)
    (p : ServerState × List Effect) (h : mwHears3 env s sender t = some p) :
    p.1.adminSessions = s.adminSessions := by
  simp only [mwHears3] at h
  repeat' split at h
  all_goals cases h
  all_goals rfl

/-- `/report` never touches the elevation set. -/
theorem mwCmdReport_admin (s : ServerState) (sender : Sender) (t : String)
    (p : ServerState × List Effect) (h : mwCmdReport s sender t = some p) :
    p.1.adminSessions = s.adminSessions := by
  simp only [mwCmdReport] at h
  repeat' split at h
  all_goals cases h
  all_goals rfl

/-- The bug-report collector never touches the elevation set. -/
theorem mwReportBug_admin (env : Env) (s : ServerState) (sender : Sender) (t : String)
    (p : ServerState × List Effect) (h : mwReportBug env s sender t = some p) :
    p.1.adminSessions = s.adminSessions := by
  simp only [mwReportBug] at h
  repeat' split at h
  all_goals cases h
  all_goals rfl

/-- Across one whole turn, the elevation set is unchanged, or gained exactly
the sender (password grant), or — only on the explicit logout label — lost
exactly the sender. -/
theorem adminSessions_cases (env : Env) (s : ServerState) (sender : Sender) (t : String) :
    (handleText env s sender t).srv.adminSessions = s.adminSessions
    ∨ (handleText env s sender t).srv.adminSessions = addAdmin s.adminSessions sender.id
    ∨ (t = "⬅️ Logout Admin"
        ∧ (handleText env s sender t).srv.adminSessions
          = delAdmin s.adminSessions sender.id) := by
  cases h1 : mwStart env s sender t with
  | some p =>
    simp only [handleText, h1]
    exact Or.inl (mwStart_admin env s sender t p h1)
  | none =>
  cases h2 : mwHears1 env s sender t with
  | some r =>
    simp only [handleText, h1, h2]
    exact Or.inl (mwHears1_admin env s sender t r h2)
  | none =>
  cases h3 : mwDispatch env s sender t with
  | some p =>
    simp only [handleText, h1, h2, h3]
    rcases mwDispatch_admin env s sender t p h3 with h | h
    · exact Or.inl h
    · exact Or.inr (Or.inl h)
  | none =>
  cases h4 : mwAdminReply env s sender t with
  | some p =>
    simp only [handleText, h1, h2, h3, h4]
    exact Or.inl (mwAdminReply_admin env s sender t p h4)
  | none =>
  cases h5 : mwCmdAdmin env s sender t with
  | some p =>
    simp only [handleText, h1, h2, h3, h4, h5]
    exact Or.inl (mwCmdAdmin_admin env s sender t p h5)
  | none =>
  cases h6 : mwHears2 env s sender t with
  | some r =>
    simp only [handleText, h1, h2, h3, h4, h5, h6]
    rcases mwHears2_admin env s sender t r h6 with h | ⟨ht, h⟩
    · exact Or.inl h
    · exact Or.inr (Or.inr ⟨ht, h⟩)
  | none =>
  cases h7 : mwAdminOps env s sender t with
  | some p =>
    simp only [handleText, h1, h2, h3, h4, h5, h6, h7]
    exact Or.inl (mwAdminOps_admin env s sender t p h7)
  | none =>
  cases h8 : mwHears3 env s sender t with
  | some p =>
    simp only [handleText, h1, h2, h3, h4, h5, h6, h7, h8]
    exact Or.inl (mwHears3_admin env s sender t p h8)
  | none =>
  cases h9 : mwCmdReport s sender t with
  | some p =>
    simp only [handleText, h1, h2, h3, h4, h5, h6, h7, h8, h9]
    exact Or.inl (mwCmdReport_admin s sender t p h9)
  | none =>
  cases h10 : mwReportBug env s sender t with
  | some p =>
    simp only [handleText, h1, h2, h3, h4, h5, h6, h7, h8, h9, h10]
    exact Or.inl (mwReportBug_admin env s sender t p h10)
  | none =>
    simp only [handleText, h1, h2, h3, h4, h5, h6, h7, h8, h9, h10]
    first
      | exact Or.inl rfl
      | exact Or.inl trivial

/-- Environment with a configured admin password. -/
def env5W : Env := { adminPass := some "hunter2" }

/-- Server state with the fixture user awaiting the password prompt. -/
def awaitW : ServerState :=
  { users := [userW], states := [(7, { step := "await_admin_pass" })] }

/-- Server state in which the fixture user is already elevated. -/
def elevW : ServerState := { users := [userW], adminSessions := [7] }

/-- C5, counterexample.  The claim says a user in `await_admin_pass` has their
next text turn consumed as a password attempt regardless of content.  False:
the fixture user is at the password prompt, sends the menu label `📋 Profile`,
and the earlier-registered menu handler consumes the turn — the session stays
at `await_admin_pass` (the prompt is not consumed) and no elevation change
happens. -/
theorem claim5_counterexample :
    getSt awaitW.states senderW.id = some { step := "await_admin_pass" }
    ∧ (handleText env5W awaitW senderW "📋 Profile").tag = "hears:📋 Profile"
    ∧ getSt (handleText env5W awaitW senderW "📋 Profile").srv.states senderW.id
        = some { step := "await_admin_pass" }
    ∧ isAdmin (handleText env5W awaitW senderW "📋 Profile").srv senderW.id = false := by
  decide

/-- C5, amended.  For a user at the `await_admin_pass` step, a text turn that
is not intercepted by an earlier-registered menu handler is consumed as a
password attempt: on the configured secret the sender is elevated and the
session cleared, on any other text elevation is unchanged and the session
likewise cleared; and an elevation, once present, persists across every turn
except the owner sending the explicit `⬅️ Logout Admin` label. -/
theorem claim5_password_turn (env : Env) (s : ServerState) (sender : Sender)
    (t pw : String) (st : Sess) (hni : NotIntercepted t)
    (hst : getSt s.states sender.id = some st) (hstep : st.step = "await_admin_pass")
    (hpw : env.adminPass = some pw) :
    (jsTrim t = pw →
        isAdmin (turn env sender t s) sender.id = true
        ∧ getSt (turn env sender t s).states sender.id = none
        ∧ (handleText env s sender t).effs = [Effect.reply "Admin access granted"])
    ∧ (jsTrim t ≠ pw →
        (turn env sender t s).adminSessions = s.adminSessions
        ∧ getSt (turn env sender t s).states sender.id = none
        ∧ (handleText env s sender t).effs = [Effect.reply "Wrong password"])
    ∧ (∀ (env2 : Env) (s2 : ServerState) (sender2 : Sender) (t2 : String) (a : Nat),
        a ∈ s2.adminSessions → (a ≠ sender2.id ∨ t2 ≠ "⬅️ Logout Admin") →
        a ∈ (turn env2 sender2 t2 s2).adminSessions) := by
  refine ⟨?_, ?_, ?_⟩
  · intro heq
    have hd : mwDispatch env s sender t
        = some (setAdminL (setStates s (delSt s.states sender.id))
            (addAdmin s.adminSessions sender.id),
          [Effect.reply "Admin access granted"]) := by
      simp [mwDispatch, hst, hstep, hpw, heq]
    have ht := handleText_dispatch env s sender t _ hni hd
    refine ⟨?_, ?_, ?_⟩
    · show isAdmin (handleText env s sender t).srv sender.id = true
      rw [ht]
      exact contains_addAdmin s.adminSessions sender.id
    · show getSt (handleText env s sender t).srv.states sender.id = none
      rw [ht]
      exact getSt_delSt _ _
    · rw [ht]
  · intro hne
    have hne2 : ¬ pw = jsTrim t := fun hh => hne hh.symm
    have hd : mwDispatch env s sender t
        = some (setStates s (delSt s.states sender.id),
          [Effect.reply "Wrong password"]) := by
      simp [mwDispatch, hst, hstep, hpw, hne2]
    have ht := handleText_dispatch env s sender t _ hni hd
    refine ⟨?_, ?_, ?_⟩
    · show (handleText env s sender t).srv.adminSessions = s.adminSessions
      rw [ht]
      rfl
    · show getSt (handleText env s sender t).srv.states sender.id = none
      rw [ht]
      exact getSt_delSt _ _
    · rw [ht]
  · intro env2 s2 sender2 t2 a ha hcond
    show a ∈ (handleText env2 s2 sender2 t2).srv.adminSessions
    rcases adminSessions_cases env2 s2 sender2 t2 with h | h | ⟨ht2, h⟩
    · rw [h]; exact ha
    · rw [h]; exact mem_addAdmin _ _ _ ha
    · rcases hcond with hne | hne
      · rw [h]; exact mem_delAdmin _ _ _ ha hne
      · exact absurd ht2 hne

/-- C5, witness: the correct password elevates and clears the session, and an
unrelated turn from the elevated user keeps the elevation. -/
theorem claim5_witness :
    isAdmin (turn env5W senderW "hunter2" awaitW) 7 = true
    ∧ getSt (turn env5W senderW "hunter2" awaitW).states 7 = none
    ∧ 7 ∈ (turn envW senderW "hello" elevW).adminSessions :=
  ⟨((claim5_password_turn env5W awaitW senderW "hunter2" "hunter2"
      { step := "await_admin_pass" } (by decide) (by decide) rfl rfl).1 (by decide)).1,
   ((claim5_password_turn env5W awaitW senderW "hunter2" "hunter2"
      { step := "await_admin_pass" } (by decide) (by decide) rfl rfl).1 (by decide)).2.1,
   (claim5_password_turn env5W awaitW senderW "hunter2" "hunter2"
      { step := "await_admin_pass" } (by decide) (by decide) rfl rfl).2.2
     envW elevW senderW "hello" 7 (by decide) (Or.inr (by decide))⟩

/-! ## Claim C10: the two admin_broadcast handlers -/

/-- The duplicated fallback broadcast loop is literally the same function as
the dispatcher one. -/
theorem bcastLoop2_eq_bcastLoop1 : bcastLoop2 = bcastLoop1 := rfl

/-- C10, counterexample.  The claim says that for EVERY text turn from an
elevated admin at step `admin_broadcast` the earlier broadcast handler fully
handles the turn.  False: the elevated fixture admin, mid-broadcast, sends the
menu label `📋 Profile`; the earlier-registered `bot.hears` menu handler
consumes the turn instead, no send is attempted, and the broadcast session
survives — neither broadcast branch runs. -/
theorem claim10_counterexample :
    isAdmin bcastW senderW.id = true
    ∧ getSt bcastW.states senderW.id = some { step := "admin_broadcast" }
    ∧ (handleText envW bcastW senderW "📋 Profile").tag = "hears:📋 Profile"
    ∧ (handleText envW bcastW senderW "📋 Profile").tag ≠ "state_dispatch"
    ∧ (handleText envW bcastW senderW "📋 Profile").effs.all
        (fun e => match e with | Effect.tell _ _ => false | _ => true) = true
    ∧ getSt (handleText envW bcastW senderW "📋 Profile").srv.states senderW.id
        = some { step := "admin_broadcast" } := by
  decide

/-- C10, amended.  For every NON-intercepted text turn from an elevated admin
at step `admin_broadcast`, the earlier-registered dispatcher branch (lines 618
to 629) consumes the turn, so the later fallback branch (lines 901 to 910,
tag `admin_ops`) is unreachable on such turns; and the two broadcast loops are
behaviourally identical: over any user list each performs exactly one send per
user to the same recipients and computes identical sent/failed counts, the
branches differing only in message prefix and final reply wording. -/
theorem claim10_two_broadcast_handlers (env : Env) (s : ServerState) (sender : Sender)
    (t : String) (st : Sess) (hni : NotIntercepted t)
    (hst : getSt s.states sender.id = some st) (hstep : st.step = "admin_broadcast")
    (hadm : isAdmin s sender.id = true) :
    (handleText env s sender t).tag = "state_dispatch"
    ∧ (handleText env s sender t).tag ≠ "admin_ops"
    ∧ (∀ (env2 : Env) (users : List User) (m1 m2 : String),
        (bcastLoop1 env2 users m1).1 = users.map (fun u => Effect.tell u.telegramId m1)
        ∧ (bcastLoop2 env2 users m2).1 = users.map (fun u => Effect.tell u.telegramId m2)
        ∧ (bcastLoop2 env2 users m2).2 = (bcastLoop1 env2 users m1).2) := by
  have hd : mwDispatch env s sender t
      = some (setStates s (delSt s.states sender.id),
          s.users.map (fun u =>
              Effect.tell u.telegramId ("📢 Message from Admin:\n\n" ++ jsTrim t))
            ++ [Effect.reply ("Broadcast complete. Sent "
                ++ toString (s.users.filter (fun u => env.sendOk u.telegramId)).length
                ++ ", failed "
                ++ toString (s.users.filter (fun u => !env.sendOk u.telegramId)).length
                ++ ".")]) := by
    simp [mwDispatch, hst, hstep, hadm, bcastLoop1_spec]
  have ht := handleText_dispatch env s sender t _ hni hd
  refine ⟨?_, ?_, ?_⟩
  · rw [ht]
  · rw [ht]
    exact show ("state_dispatch" : String) ≠ "admin_ops" by decide
  · intro env2 users m1 m2
    rw [bcastLoop2_eq_bcastLoop1, bcastLoop1_spec, bcastLoop1_spec]
    exact ⟨rfl, rfl, rfl⟩

/-- C10, witness: the elevated fixture admin broadcasting "hello" is handled
by the dispatcher branch, and the two loops agree on counts for users 8 and 9
under the transport that rejects 9. -/
theorem claim10_witness :
    (handleText env8W bcastW senderW "hello").tag = "state_dispatch"
    ∧ (bcastLoop2 env8W bcastW.users "B").2 = (bcastLoop1 env8W bcastW.users "A").2 :=
  ⟨(claim10_two_broadcast_handlers env8W bcastW senderW "hello"
      { step := "admin_broadcast" } (by decide) (by decide) rfl (by decide)).1,
   ((claim10_two_broadcast_handlers env8W bcastW senderW "hello"
      { step := "admin_broadcast" } (by decide) (by decide) rfl (by decide)).2.2
     env8W bcastW.users "A" "B").2.2⟩

/-! ## Claim C6: privileged operations require elevation on the very turn -/

/-- Role bookkeeping between two user stores: every document keeps its role. -/
@[reducible] def RolesOK (l l2 : List User) : Prop :=
  ∀ id u, findU l id = some u → ∃ u2, findU l2 id = some u2 ∧ u2.role = u.role

/-- No outbound send of a turn is a broadcast or a trainer reply: every
`sendMessage` of the turn is one of the two unprivileged notifications. -/
@[reducible] def NoPrivTell (effs : List Effect) : Prop :=
  ∀ i m, Effect.tell i m ∈ effs →
    "Message from ".data <+: m.data ∨ "🐞 Bug reported by ".data <+: m.data

/-- The frame a turn without elevation must preserve: stored content untouched,
all roles kept, no privileged send. -/
@[reducible] def FrameOK (s : ServerState) (s2 : ServerState) (effs : List Effect) : Prop :=
  s2.exercises = s.exercises ∧ s2.workouts = s.workouts ∧ s2.challenges = s.challenges
  ∧ RolesOK s.users s2.users ∧ NoPrivTell effs

/-- String concatenation concatenates the character lists. -/
theorem data_append (a b : String) : (a ++ b).data = a.data ++ b.data := rfl

/-- A found document carries the id it was found under. -/
theorem findU_found_id (l : List User) (id : Nat) (u : User) (h : findU l id = some u) :
    u.telegramId = id := by
  unfold findU at h
  have hp := List.find?_some h
  simpa using hp

/-- The identity store keeps roles. -/
theorem rolesOK_refl (l : List User) : RolesOK l l := fun _ u hu => ⟨u, hu, rfl⟩

/-- Appending fresh documents keeps roles of existing ones. -/
theorem rolesOK_append (l l2 : List User) : RolesOK l (l ++ l2) := by
  intro id u hu
  refine ⟨u, ?_, rfl⟩
  unfold findU at hu ⊢
  rw [List.find?_append, hu]
  rfl

/-- Saving a role-preserving update of a found document keeps all roles. -/
theorem rolesOK_saveU (l : List User) (id0 : Nat) (user v : User)
    (hf : findU l id0 = some user)
    (hid : v.telegramId = user.telegramId) (hrole : v.role = user.role) :
    RolesOK l (saveU l v) := by
  intro id u hu
  rw [findU_saveU, hu]
  by_cases hc : (u.telegramId == v.telegramId) = true
  · refine ⟨v, ?_, ?_⟩
    · show some (if u.telegramId == v.telegramId then v else u) = some v
      rw [if_pos hc]
    · have h1 := findU_found_id l id u hu
      have h2 := findU_found_id l id0 user hf
      have h3 : u.telegramId = user.telegramId := by
        rw [eq_of_beq hc, hid]
      have h4 : id = id0 := by rw [← h1, h3, h2]
      rw [h4] at hu
      rw [hf] at hu
      cases hu
      exact hrole
  · refine ⟨u, ?_, rfl⟩
    show some (if u.telegramId == v.telegramId then v else u) = some u
    rw [if_neg hc]

/-- `/start` respects the unprivileged frame. -/
theorem mwStart_frame (env : Env) (s : ServerState) (sender : Sender) (t : String)
    (p : ServerState × List Effect) (h : mwStart env s sender t = some p) :
    FrameOK s p.1 p.2 := by
  simp only [mwStart] at h
  repeat' split at h
  all_goals cases h
  all_goals refine ⟨rfl, rfl, rfl, ?_, ?_⟩
  all_goals first
    | exact rolesOK_refl _
    | (apply rolesOK_saveU <;> first | assumption | rfl)
    | exact rolesOK_append _ _
    | (intro i m hm; simp at hm; done)
    | (intro i m hm
       obtain ⟨a, -, heq⟩ := List.mem_map.mp hm
       cases heq)
    | (intro i m hm
       rcases List.mem_append.mp hm with hl | hr
       · obtain ⟨aid, -, heq⟩ := List.mem_map.mp hl
         injection heq with h1 h2
         subst h2
         first
           | (left
              simp only [data_append, List.append_assoc]
              exact List.prefix_append _ _)
           | (right
              simp only [data_append, List.append_assoc]
              exact List.prefix_append _ _)
       · simp at hr)

/-- Every main-menu handler respects the unprivileged frame. -/
theorem mwHears1_frame (env : Env) (s : ServerState) (sender : Sender) (t : String)
    (r : MwOut) (h : mwHears1 env s sender t = some r) :
    FrameOK s r.srv r.effs := by
  by_cases hmem : t ∈ allTriggers
  case neg =>
    rw [mwHears1_none env s sender t hmem] at h
    cases h
  simp only [allTriggers, List.mem_cons, List.not_mem_nil, or_false] at hmem
  rcases hmem with rfl|rfl|rfl|rfl|rfl|rfl|rfl|rfl|rfl|rfl|rfl|rfl|rfl|rfl|rfl|rfl|rfl|rfl|rfl|rfl|rfl|rfl|rfl|rfl|rfl|rfl|rfl|rfl|rfl|rfl|rfl|rfl|rfl|rfl|rfl|rfl|rfl
  all_goals simp [mwHears1] at h
  all_goals subst h
  all_goals simp only [tagged, hProfile, hEditProfile, hSwitchProfile, hAddProfile, hToday,
    hMyPlan, hBrowse, hViewMeals, hMacro, hProgress, hRemoveReminders, hChallenges]
  all_goals (repeat' split)
  all_goals refine ⟨rfl, rfl, rfl, ?_, ?_⟩
  all_goals first
    | exact rolesOK_refl _
    | (apply rolesOK_saveU <;> first | assumption | rfl)
    | exact rolesOK_append _ _
    | (intro i m hm; simp at hm; done)
    | (intro i m hm
       obtain ⟨a, -, heq⟩ := List.mem_map.mp hm
       cases heq)
    | (intro i m hm
       rcases List.mem_append.mp hm with hl | hr
       · obtain ⟨aid, -, heq⟩ := List.mem_map.mp hl
         injection heq with h1 h2
         subst h2
         first
           | (left
              simp only [data_append, List.append_assoc]
              exact List.prefix_append _ _)
           | (right
              simp only [data_append, List.append_assoc]
              exact List.prefix_append _ _)
       · simp at hr)

/-- Without elevation, the state dispatcher respects the unprivileged frame
(in particular its broadcast branch cannot fire). -/
theorem mwDispatch_frame (env : Env) (s : ServerState) (sender : Sender) (t : String)
    (p : ServerState × List Effect) (hadm : isAdmin s sender.id = false)
    (h : mwDispatch env s sender t = some p) :
    FrameOK s p.1 p.2 := by
  cases hget : getSt s.states sender.id with
  | none =>
    simp only [mwDispatch, hget] at h
    cases h
  | some st =>
    simp only [mwDispatch, hget] at h
    by_cases c1 : st.step = "await_admin_pass"
    case pos =>
      rw [if_pos c1] at h
      repeat' split at h
      all_goals cases h
      all_goals simp only [finishEdit]
      all_goals refine ⟨rfl, rfl, rfl, ?_, ?_⟩
      all_goals first
        | exact rolesOK_refl _
        | (apply rolesOK_saveU <;> first | assumption | rfl)
        | exact rolesOK_append _ _
        | (intro i m hm; simp at hm; done)
        | (intro i m hm
           obtain ⟨a, -, heq⟩ := List.mem_map.mp hm
           cases heq)
        | (intro i m hm
           rcases List.mem_append.mp hm with hl | hr
           · obtain ⟨aid, -, heq⟩ := List.mem_map.mp hl
             injection heq with h1 h2
             subst h2
             first
               | (left
                  simp only [data_append, List.append_assoc]
                  exact List.prefix_append _ _)
               | (right
                  simp only [data_append, List.append_assoc]
                  exact List.prefix_append _ _)
           · simp at hr)
    rw [if_neg c1] at h
    by_cases c2 : st.step = "edit_profile_full"
    case pos =>
      rw [if_pos c2] at h
      repeat' split at h
      all_goals cases h
      all_goals simp only [finishEdit]
      all_goals refine ⟨rfl, rfl, rfl, ?_, ?_⟩
      all_goals first
        | exact rolesOK_refl _
        | (apply rolesOK_saveU <;> first | assumption | rfl)
        | exact rolesOK_append _ _
        | (intro i m hm; simp at hm; done)
        | (intro i m hm
           obtain ⟨a, -, heq⟩ := List.mem_map.mp hm
           cases heq)
        | (intro i m hm
           rcases List.mem_append.mp hm with hl | hr
           · obtain ⟨aid, -, heq⟩ := List.mem_map.mp hl
             injection heq with h1 h2
             subst h2
             first
               | (left
                  simp only [data_append, List.append_assoc]
                  exact List.prefix_append _ _)
               | (right
                  simp only [data_append, List.append_assoc]
                  exact List.prefix_append _ _)
           · simp at hr)
    rw [if_neg c2] at h
    by_cases c3 : st.step = "edit_profile_weight"
    case pos =>
      rw [if_pos c3] at h
      repeat' split at h
      all_goals cases h
      all_goals simp only [finishEdit]
      all_goals refine ⟨rfl, rfl, rfl, ?_, ?_⟩
      all_goals first
        | exact rolesOK_refl _
        | (apply rolesOK_saveU <;> first | assumption | rfl)
        | exact rolesOK_append _ _
        | (intro i m hm; simp at hm; done)
        | (intro i m hm
           obtain ⟨a, -, heq⟩ := List.mem_map.mp hm
           cases heq)
        | (intro i m hm
           rcases List.mem_append.mp hm with hl | hr
           · obtain ⟨aid, -, heq⟩ := List.mem_map.mp hl
             injection heq with h1 h2
             subst h2
             first
               | (left
                  simp only [data_append, List.append_assoc]
                  exact List.prefix_append _ _)
               | (right
                  simp only [data_append, List.append_assoc]
                  exact List.prefix_append _ _)
           · simp at hr)
    rw [if_neg c3] at h
    by_cases c4 : st.step = "edit_profile_height"
    case pos =>
      rw [if_pos c4] at h
      repeat' split at h
      all_goals cases h
      all_goals simp only [finishEdit]
      all_goals refine ⟨rfl, rfl, rfl, ?_, ?_⟩
      all_goals first
        | exact rolesOK_refl _
        | (apply rolesOK_saveU <;> first | assumption | rfl)
        | exact rolesOK_append _ _
        | (intro i m hm; simp at hm; done)
        | (intro i m hm
           obtain ⟨a, -, heq⟩ := List.mem_map.mp hm
           cases heq)
        | (intro i m hm
           rcases List.mem_append.mp hm with hl | hr
           · obtain ⟨aid, -, heq⟩ := List.mem_map.mp hl
             injection heq with h1 h2
             subst h2
             first
               | (left
                  simp only [data_append, List.append_assoc]
                  exact List.prefix_append _ _)
               | (right
                  simp only [data_append, List.append_assoc]
                  exact List.prefix_append _ _)
           · simp at hr)
    rw [if_neg c4] at h
    by_cases c5 : st.step = "editing_profile_field"
    case pos =>
      rw [if_pos c5] at h
      repeat' split at h
      all_goals cases h
      all_goals simp only [finishEdit]
      all_goals refine ⟨rfl, rfl, rfl, ?_, ?_⟩
      all_goals first
        | exact rolesOK_refl _
        | (apply rolesOK_saveU <;> first | assumption | rfl)
        | exact rolesOK_append _ _
        | (intro i m hm; simp at hm; done)
        | (intro i m hm
           obtain ⟨a, -, heq⟩ := List.mem_map.mp hm
           cases heq)
        | (intro i m hm
           rcases List.mem_append.mp hm with hl | hr
           · obtain ⟨aid, -, heq⟩ := List.mem_map.mp hl
             injection heq with h1 h2
             subst h2
             first
               | (left
                  simp only [data_append, List.append_assoc]
                  exact List.prefix_append _ _)
               | (right
                  simp only [data_append, List.append_assoc]
                  exact List.prefix_append _ _)
           · simp at hr)
    rw [if_neg c5] at h
    by_cases c6 : "editing_profile_".data <+: st.step.data
    case pos =>
      rw [if_pos c6] at h
      repeat' split at h
      all_goals cases h
      all_goals simp only [finishEdit]
      all_goals refine ⟨rfl, rfl, rfl, ?_, ?_⟩
      all_goals first
        | exact rolesOK_refl _
        | (apply rolesOK_saveU <;> first | assumption | rfl)
        | exact rolesOK_append _ _
        | (intro i m hm; simp at hm; done)
        | (intro i m hm
           obtain ⟨a, -, heq⟩ := List.mem_map.mp hm
           cases heq)
        | (intro i m hm
           rcases List.mem_append.mp hm with hl | hr
           · obtain ⟨aid, -, heq⟩ := List.mem_map.mp hl
             injection heq with h1 h2
             subst h2
             first
               | (left
                  simp only [data_append, List.append_assoc]
                  exact List.prefix_append _ _)
               | (right
                  simp only [data_append, List.append_assoc]
                  exact List.prefix_append _ _)
           · simp at hr)
    rw [if_neg c6] at h
    by_cases c7 : st.step = "switch_profile"
    case pos =>
      rw [if_pos c7] at h
      repeat' split at h
      all_goals cases h
      all_goals simp only [finishEdit]
      all_goals refine ⟨rfl, rfl, rfl, ?_, ?_⟩
      all_goals first
        | exact rolesOK_refl _
        | (apply rolesOK_saveU <;> first | assumption | rfl)
        | exact rolesOK_append _ _
        | (intro i m hm; simp at hm; done)
        | (intro i m hm
           obtain ⟨a, -, heq⟩ := List.mem_map.mp hm
           cases heq)
        | (intro i m hm
           rcases List.mem_append.mp hm with hl | hr
           · obtain ⟨aid, -, heq⟩ := List.mem_map.mp hl
             injection heq with h1 h2
             subst h2
             first
               | (left
                  simp only [data_append, List.append_assoc]
                  exact List.prefix_append _ _)
               | (right
                  simp only [data_append, List.append_assoc]
                  exact List.prefix_append _ _)
           · simp at hr)
    rw [if_neg c7] at h
    by_cases c8 : st.step = "delete_profile"
    case pos =>
      rw [if_pos c8] at h
      repeat' split at h
      all_goals cases h
      all_goals simp only [finishEdit]
      all_goals refine ⟨rfl, rfl, rfl, ?_, ?_⟩
      all_goals first
        | exact rolesOK_refl _
        | (apply rolesOK_saveU <;> first | assumption | rfl)
        | exact rolesOK_append _ _
        | (intro i m hm; simp at hm; done)
        | (intro i m hm
           obtain ⟨a, -, heq⟩ := List.mem_map.mp hm
           cases heq)
        | (intro i m hm
           rcases List.mem_append.mp hm with hl | hr
           · obtain ⟨aid, -, heq⟩ := List.mem_map.mp hl
             injection heq with h1 h2
             subst h2
             first
               | (left
                  simp only [data_append, List.append_assoc]
                  exact List.prefix_append _ _)
               | (right
                  simp only [data_append, List.append_assoc]
                  exact List.prefix_append _ _)
           · simp at hr)
    rw [if_neg c8] at h
    by_cases c9 : st.step = "browse_exercises"
    case pos =>
      rw [if_pos c9] at h
      repeat' split at h
      all_goals cases h
      all_goals simp only [finishEdit]
      all_goals refine ⟨rfl, rfl, rfl, ?_, ?_⟩
      all_goals first
        | exact rolesOK_refl _
        | (apply rolesOK_saveU <;> first | assumption | rfl)
        | exact rolesOK_append _ _
        | (intro i m hm; simp at hm; done)
        | (intro i m hm
           obtain ⟨a, -, heq⟩ := List.mem_map.mp hm
           cases heq)
        | (intro i m hm
           rcases List.mem_append.mp hm with hl | hr
           · obtain ⟨aid, -, heq⟩ := List.mem_map.mp hl
             injection heq with h1 h2
             subst h2
             first
               | (left
                  simp only [data_append, List.append_assoc]
                  exact List.prefix_append _ _)
               | (right
                  simp only [data_append, List.append_assoc]
                  exact List.prefix_append _ _)
           · simp at hr)
    rw [if_neg c9] at h
    by_cases c10 : st.step = "log_meal"
    case pos =>
      rw [if_pos c10] at h
      repeat' split at h
      all_goals cases h
      all_goals simp only [finishEdit]
      all_goals refine ⟨rfl, rfl, rfl, ?_, ?_⟩
      all_goals first
        | exact rolesOK_refl _
        | (apply rolesOK_saveU <;> first | assumption | rfl)
        | exact rolesOK_append _ _
        | (intro i m hm; simp at hm; done)
        | (intro i m hm
           obtain ⟨a, -, heq⟩ := List.mem_map.mp hm
           cases heq)
        | (intro i m hm
           rcases List.mem_append.mp hm with hl | hr
           · obtain ⟨aid, -, heq⟩ := List.mem_map.mp hl
             injection heq with h1 h2
             subst h2
             first
               | (left
                  simp only [data_append, List.append_assoc]
                  exact List.prefix_append _ _)
               | (right
                  simp only [data_append, List.append_assoc]
                  exact List.prefix_append _ _)
           · simp at hr)
    rw [if_neg c10] at h
    by_cases c11 : st.step = "set_daily_reminder"
    case pos =>
      rw [if_pos c11] at h
      repeat' split at h
      all_goals cases h
      all_goals simp only [finishEdit]
      all_goals refine ⟨rfl, rfl, rfl, ?_, ?_⟩
      all_goals first
        | exact rolesOK_refl _
        | (apply rolesOK_saveU <;> first | assumption | rfl)
        | exact rolesOK_append _ _
        | (intro i m hm; simp at hm; done)
        | (intro i m hm
           obtain ⟨a, -, heq⟩ := List.mem_map.mp hm
           cases heq)
        | (intro i m hm
           rcases List.mem_append.mp hm with hl | hr
           · obtain ⟨aid, -, heq⟩ := List.mem_map.mp hl
             injection heq with h1 h2
             subst h2
             first
               | (left
                  simp only [data_append, List.append_assoc]
                  exact List.prefix_append _ _)
               | (right
                  simp only [data_append, List.append_assoc]
                  exact List.prefix_append _ _)
           · simp at hr)
    rw [if_neg c11] at h
    by_cases c12 : st.step = "set_water_reminders"
    case pos =>
      rw [if_pos c12] at h
      repeat' split at h
      all_goals cases h
      all_goals simp only [finishEdit]
      all_goals refine ⟨rfl, rfl, rfl, ?_, ?_⟩
      all_goals first
        | exact rolesOK_refl _
        | (apply rolesOK_saveU <;> first | assumption | rfl)
        | exact rolesOK_append _ _
        | (intro i m hm; simp at hm; done)
        | (intro i m hm
           obtain ⟨a, -, heq⟩ := List.mem_map.mp hm
           cases heq)
        | (intro i m hm
           rcases List.mem_append.mp hm with hl | hr
           · obtain ⟨aid, -, heq⟩ := List.mem_map.mp hl
             injection heq with h1 h2
             subst h2
             first
               | (left
                  simp only [data_append, List.append_assoc]
                  exact List.prefix_append _ _)
               | (right
                  simp only [data_append, List.append_assoc]
                  exact List.prefix_append _ _)
           · simp at hr)
    rw [if_neg c12] at h
    by_cases c13 : st.step = "message_trainer"
    case pos =>
      rw [if_pos c13] at h
      repeat' split at h
      all_goals cases h
      all_goals refine ⟨rfl, rfl, rfl, ?_, ?_⟩
      all_goals first
        | exact rolesOK_refl _
        | (apply rolesOK_saveU <;> first | assumption | rfl)
        | exact rolesOK_append _ _
        | (intro i m hm; simp at hm; done)
        | (intro i m hm
           obtain ⟨a, -, heq⟩ := List.mem_map.mp hm
           cases heq)
        | (intro i m hm
           rcases List.mem_append.mp hm with hl | hr
           · obtain ⟨aid, -, heq⟩ := List.mem_map.mp hl
             injection heq with h1 h2
             subst h2
             first
               | (left
                  simp only [data_append, List.append_assoc]
                  exact List.prefix_append _ _)
               | (right
                  simp only [data_append, List.append_assoc]
                  exact List.prefix_append _ _)
           · simp at hr)
    rw [if_neg c13] at h
    rw [if_neg (fun hc => by have h2 := hc.1; rw [hadm] at h2; cases h2)] at h
    cases h

/-- Without elevation, the admin-reply middleware cannot fire. -/
theorem mwAdminReply_frame (env : Env) (s : ServerState) (sender : Sender) (t : String)
    (p : ServerState × List Effect) (hadm : isAdmin s sender.id = false)
    (h : mwAdminReply env s sender t = some p) :
    FrameOK s p.1 p.2 := by
  cases hget : getSt s.states sender.id with
  | none =>
    simp only [mwAdminReply, hget] at h
    cases h
  | some st =>
    simp only [mwAdminReply, hget] at h
    rw [if_neg (fun hc => by have h2 := hc.2; rw [hadm] at h2; cases h2)] at h
    cases h

/-- `/admin` respects the unprivileged frame. -/
theorem mwCmdAdmin_frame (env : Env) (s : ServerState) (sender : Sender) (t : String)
    (p : ServerState × List Effect) (h : mwCmdAdmin env s sender t = some p) :
    FrameOK s p.1 p.2 := by
  simp only [mwCmdAdmin] at h
  repeat' split at h
  all_goals cases h
  all_goals refine ⟨rfl, rfl, rfl, ?_, ?_⟩
  all_goals first
    | exact rolesOK_refl _
    | (apply rolesOK_saveU <;> first | assumption | rfl)
    | exact rolesOK_append _ _
    | (intro i m hm; simp at hm; done)
    | (intro i m hm
       obtain ⟨a, -, heq⟩ := List.mem_map.mp hm
       cases heq)
    | (intro i m hm
       rcases List.mem_append.mp hm with hl | hr
       · obtain ⟨aid, -, heq⟩ := List.mem_map.mp hl
         injection heq with h1 h2
         subst h2
         first
           | (left
              simp only [data_append, List.append_assoc]
              exact List.prefix_append _ _)
           | (right
              simp only [data_append, List.append_assoc]
              exact List.prefix_append _ _)
       · simp at hr)

/-- Every admin-menu handler respects the unprivileged frame. -/
theorem mwHears2_frame (env : Env) (s : ServerState) (sender : Sender) (t : String)
    (r : MwOut) (h : mwHears2 env s sender t = some r) :
    FrameOK s r.srv r.effs := by
  by_cases hmem : t ∈ allTriggers
  case neg =>
    rw [mwHears2_none env s sender t hmem] at h
    cases h
  simp only [allTriggers, List.mem_cons, List.not_mem_nil, or_false] at hmem
  rcases hmem with rfl|rfl|rfl|rfl|rfl|rfl|rfl|rfl|rfl|rfl|rfl|rfl|rfl|rfl|rfl|rfl|rfl|rfl|rfl|rfl|rfl|rfl|rfl|rfl|rfl|rfl|rfl|rfl|rfl|rfl|rfl|rfl|rfl|rfl|rfl|rfl|rfl
  all_goals simp [mwHears2] at h
  all_goals subst h
  all_goals simp only [tagged, hLogout, hUserMgmt, hAdminFlowEntry, hViewContent,
    hAnalytics, hFeedback]
  all_goals (repeat' split)
  all_goals refine ⟨rfl, rfl, rfl, ?_, ?_⟩
  all_goals first
    | exact rolesOK_refl _
    | (apply rolesOK_saveU <;> first | assumption | rfl)
    | exact rolesOK_append _ _
    | (intro i m hm; simp at hm; done)
    | (intro i m hm
       obtain ⟨a, -, heq⟩ := List.mem_map.mp hm
       cases heq)
    | (intro i m hm
       rcases List.mem_append.mp hm with hl | hr
       · obtain ⟨aid, -, heq⟩ := List.mem_map.mp hl
         injection heq with h1 h2
         subst h2
         first
           | (left
              simp only [data_append, List.append_assoc]
              exact List.prefix_append _ _)
           | (right
              simp only [data_append, List.append_assoc]
              exact List.prefix_append _ _)
       · simp at hr)

/-- Without elevation, no admin-operation branch can fire. -/
theorem mwAdminOps_frame (env : Env) (s : ServerState) (sender : Sender) (t : String)
    (p : ServerState × List Effect) (hadm : isAdmin s sender.id = false)
    (h : mwAdminOps env s sender t = some p) :
    FrameOK s p.1 p.2 := by
  cases hget : getSt s.states sender.id with
  | none =>
    simp only [mwAdminOps, hget] at h
    cases h
  | some st =>
    simp only [mwAdminOps, hget] at h
    have hno : ∀ P : Prop, ¬(P ∧ isAdmin s sender.id = true) := fun P hc => by
      have h2 := hc.2
      rw [hadm] at h2
      cases h2
    rw [if_neg (hno _), if_neg (hno _), if_neg (hno _), if_neg (hno _), if_neg (hno _),
      if_neg (hno _), if_neg (hno _)] at h
    cases h

/-- The data-deletion handler respects the unprivileged frame. -/
theorem mwHears3_frame (env : Env) (s : ServerState) (sender : Sender) (t : String)
    (p : ServerState × List Effect) (h : mwHears3 env s sender t = some p) :
    FrameOK s p.1 p.2 := by
  simp only [mwHears3] at h
  repeat' split at h
  all_goals cases h
  all_goals refine ⟨rfl, rfl, rfl, ?_, ?_⟩
  all_goals first
    | exact rolesOK_refl _
    | (apply rolesOK_saveU <;> first | assumption | rfl)
    | exact rolesOK_append _ _
    | (intro i m hm; simp at hm; done)
    | (intro i m hm
       obtain ⟨a, -, heq⟩ := List.mem_map.mp hm
       cases heq)
    | (intro i m hm
       rcases List.mem_append.mp hm with hl | hr
       · obtain ⟨aid, -, heq⟩ := List.mem_map.mp hl
         injection heq with h1 h2
         subst h2
         first
           | (left
              simp only [data_append, List.append_assoc]
              exact List.prefix_append _ _)
           | (right
              simp only [data_append, List.append_assoc]
              exact List.prefix_append _ _)
       · simp at hr)

/-- `/report` respects the unprivileged frame. -/
theorem mwCmdReport_frame (s : ServerState) (sender : Sender) (t : String)
    (p : ServerState × List Effect) (h : mwCmdReport s sender t = some p) :
    FrameOK s p.1 p.2 := by
  simp only [mwCmdReport] at h
  repeat' split at h
  all_goals cases h
  all_goals refine ⟨rfl, rfl, rfl, ?_, ?_⟩
  all_goals first
    | exact rolesOK_refl _
    | (apply rolesOK_saveU <;> first | assumption | rfl)
    | exact rolesOK_append _ _
    | (intro i m hm; simp at hm; done)
    | (intro i m hm
       obtain ⟨a, -, heq⟩ := List.mem_map.mp hm
       cases heq)
    | (intro i m hm
       rcases List.mem_append.mp hm with hl | hr
       · obtain ⟨aid, -, heq⟩ := List.mem_map.mp hl
         injection heq with h1 h2
         subst h2
         first
           | (left
              simp only [data_append, List.append_assoc]
              exact List.prefix_append _ _)
           | (right
              simp only [data_append, List.append_assoc]
              exact List.prefix_append _ _)
       · simp at hr)

/-- The bug-report collector sends only the bug notification. -/
theorem mwReportBug_frame (env : Env) (s : ServerState) (sender : Sender) (t : String)
    (p : ServerState × List Effect) (h : mwReportBug env s sender t = some p) :
    FrameOK s p.1 p.2 := by
  simp only [mwReportBug] at h
  repeat' split at h
  all_goals cases h
  all_goals refine ⟨rfl, rfl, rfl, ?_, ?_⟩
  all_goals first
    | exact rolesOK_refl _
    | (apply rolesOK_saveU <;> first | assumption | rfl)
    | exact rolesOK_append _ _
    | (intro i m hm; simp at hm; done)
    | (intro i m hm
       obtain ⟨a, -, heq⟩ := List.mem_map.mp hm
       cases heq)
    | (intro i m hm
       rcases List.mem_append.mp hm with hl | hr
       · obtain ⟨aid, -, heq⟩ := List.mem_map.mp hl
         injection heq with h1 h2
         subst h2
         first
           | (left
              simp only [data_append, List.append_assoc]
              exact List.prefix_append _ _)
           | (right
              simp only [data_append, List.append_assoc]
              exact List.prefix_append _ _)
       · simp at hr)

/-- C6.  On any turn from a sender who is not in the elevation set at the time
of the turn, no privileged operation executes: the stored exercises, workouts
and challenges are untouched, every user document keeps its role (so no
promote/demote/remove happens), and no broadcast or trainer-reply message is
sent — every outbound send of such a turn is one of the two unprivileged
notifications.  This holds regardless of the session step, so a sender logged
out of elevation mid-flow never triggers the privileged effect. -/
theorem claim6_privilege_requires_elevation (env : Env) (s : ServerState)
    (sender : Sender) (t : String) (hadm : isAdmin s sender.id = false) :
    (handleText env s sender t).srv.exercises = s.exercises
    ∧ (handleText env s sender t).srv.workouts = s.workouts
    ∧ (handleText env s sender t).srv.challenges = s.challenges
    ∧ RolesOK s.users (handleText env s sender t).srv.users
    ∧ NoPrivTell (handleText env s sender t).effs := by
  cases h1 : mwStart env s sender t with
  | some p =>
    simp only [handleText, h1]
    exact mwStart_frame env s sender t p h1
  | none =>
  cases h2 : mwHears1 env s sender t with
  | some r =>
    simp only [handleText, h1, h2]
    exact mwHears1_frame env s sender t r h2
  | none =>
  cases h3 : mwDispatch env s sender t with
  | some p =>
    simp only [handleText, h1, h2, h3]
    exact mwDispatch_frame env s sender t p hadm h3
  | none =>
  cases h4 : mwAdminReply env s sender t with
  | some p =>
    simp only [handleText, h1, h2, h3, h4]
    exact mwAdminReply_frame env s sender t p hadm h4
  | none =>
  cases h5 : mwCmdAdmin env s sender t with
  | some p =>
    simp only [handleText, h1, h2, h3, h4, h5]
    exact mwCmdAdmin_frame env s sender t p h5
  | none =>
  cases h6 : mwHears2 env s sender t with
  | some r =>
    simp only [handleText, h1, h2, h3, h4, h5, h6]
    exact mwHears2_frame env s sender t r h6
  | none =>
  cases h7 : mwAdminOps env s sender t with
  | some p =>
    simp only [handleText, h1, h2, h3, h4, h5, h6, h7]
    exact mwAdminOps_frame env s sender t p hadm h7
  | none =>
  cases h8 : mwHears3 env s sender t with
  | some p =>
    simp only [handleText, h1, h2, h3, h4, h5, h6, h7, h8]
    exact mwHears3_frame env s sender t p h8
  | none =>
  cases h9 : mwCmdReport s sender t with
  | some p =>
    simp only [handleText, h1, h2, h3, h4, h5, h6, h7, h8, h9]
    exact mwCmdReport_frame s sender t p h9
  | none =>
  cases h10 : mwReportBug env s sender t with
  | some p =>
    simp only [handleText, h1, h2, h3, h4, h5, h6, h7, h8, h9, h10]
    exact mwReportBug_frame env s sender t p h10
  | none =>
    simp only [handleText, h1, h2, h3, h4, h5, h6, h7, h8, h9, h10]
    refine ⟨?_, ?_, ?_, rolesOK_refl _, ?_⟩
    all_goals first
      | rfl
      | trivial
      | (intro i m hm; simp at hm)

/-- Server state with a non-elevated sender whose session step is the
privileged broadcast flow. -/
def c6W : ServerState :=
  { users := [{ telegramId := 8 }, { telegramId := 9 }],
    states := [(7, { step := "admin_broadcast" })] }

/-- C6, witness: the demoted fixture sender, still mid-broadcast by session
step, triggers no content change and no role change. -/
theorem claim6_witness :
    (handleText envW c6W senderW "hello").srv.exercises = c6W.exercises
    ∧ (∃ u2, findU (handleText envW c6W senderW "hello").srv.users 8 = some u2
        ∧ u2.role = ({ telegramId := 8 } : User).role) :=
  ⟨(claim6_privilege_requires_elevation envW c6W senderW "hello" (by decide)).1,
   (claim6_privilege_requires_elevation envW c6W senderW "hello" (by decide)).2.2.2.1
     8 { telegramId := 8 } (by decide)⟩


end TrainerBot
